import Mathlib

/- A shallow embedding of the deterministic game runtime in
src/src/game/runtime.ts of the powerball repository.  JavaScript numbers
are modelled by exact rationals; the transcendental floating-point
primitives (Math.exp, Math.sin, Math.cos, Math.sqrt, Math.pow and the
constant Math.PI), whose exact values no claim depends on, are parameters
gathered in a FloatModel, so every theorem is proved for all
interpretations of them.  The seeded linear congruential generator is
embedded exactly (its state stays below 2^32, so all of its arithmetic is
exact in IEEE doubles).  The JavaScript Infinity value, used for the
pirate trigger time and the boarding timer, is modelled by Option with
none for Infinity.  In-place mutation of the runtime record is modelled
by explicit state passing. -/

set_option maxRecDepth 4000

namespace Powerball

/-- Interpretation of the transcendental floating-point primitives used by
the runtime. -/
structure FloatModel where
  exp : ℚ → ℚ
  sin : ℚ → ℚ
  cos : ℚ → ℚ
  sqrt : ℚ → ℚ
  powq : ℚ → ℚ → ℚ
  pi : ℚ

/-- three.js Vector3 with exact rational components. -/
structure V3 where
  x : ℚ
  y : ℚ
  z : ℚ
  deriving DecidableEq

namespace V3

def add (a b : V3) : V3 := ⟨a.x + b.x, a.y + b.y, a.z + b.z⟩

def sub (a b : V3) : V3 := ⟨a.x - b.x, a.y - b.y, a.z - b.z⟩

def smul (a : V3) (s : ℚ) : V3 := ⟨a.x * s, a.y * s, a.z * s⟩

/-- three.js addScaledVector. -/
def addScaled (a v : V3) (s : ℚ) : V3 := ⟨a.x + v.x * s, a.y + v.y * s, a.z + v.z * s⟩

def dot (a b : V3) : ℚ := a.x * b.x + a.y * b.y + a.z * b.z

def lengthSq (a : V3) : ℚ := a.dot a

def length (fm : FloatModel) (a : V3) : ℚ := fm.sqrt a.lengthSq

def distanceTo (fm : FloatModel) (a b : V3) : ℚ := fm.sqrt (a.sub b).lengthSq

/-- three.js normalize divides by the length, or by 1 when the length is 0. -/
def normalize (fm : FloatModel) (a : V3) : V3 :=
  let l := a.length fm
  let d := if l = 0 then 1 else l
  ⟨a.x / d, a.y / d, a.z / d⟩

def setLength (fm : FloatModel) (a : V3) (l : ℚ) : V3 := (a.normalize fm).smul l

/-- three.js lerp toward b with factor t. -/
def lerp (a b : V3) (t : ℚ) : V3 :=
  ⟨a.x + (b.x - a.x) * t, a.y + (b.y - a.y) * t, a.z + (b.z - a.z) * t⟩

def setY (a : V3) (v : ℚ) : V3 := ⟨a.x, v, a.z⟩

end V3

/-- three.js MathUtils.clamp value lo hi = max lo (min hi value). -/
def jsClamp (v lo hi : ℚ) : ℚ := max lo (min hi v)

/-- One step of the seededRandom linear congruential generator: state
becomes (1664525 * state + 1013904223) mod 2^32 and the output is the new
state divided by 2^32.  The state is kept as an integer (always in
[0, 2^32) after a step, like the JavaScript >>> 0 result). -/
def rngNext (st : ℤ) : ℤ × ℚ :=
  let stp := (1664525 * st + 1013904223) % 4294967296
  (stp, (stp : ℚ) / 4294967296)

/-- randomRange, threading the generator state. -/
def randomRangeN (st : ℤ) (lo hi : ℚ) : ℤ × ℚ :=
  let p := rngNext st
  (p.1, lo + (hi - lo) * p.2)

inductive ResourceId
  | scrapIron
  | waterIce
  | cobaltDust
  | xenoCrystal
  | fringeRelic
  deriving DecidableEq

structure ResourceDef where
  rid : ResourceId
  label : String
  value : ℚ
  volume : ℚ
  color : String
  deriving DecidableEq

/-- The RESOURCES table. -/
def RESOURCES : ResourceId → ResourceDef
  | .scrapIron => ⟨.scrapIron, "Scrap Iron", 12, 3, "#886e52"⟩
  | .waterIce => ⟨.waterIce, "Water Ice", 18, 5, "#c2c0b7"⟩
  | .cobaltDust => ⟨.cobaltDust, "Cobalt Dust", 34, 4, "#7c674f"⟩
  | .xenoCrystal => ⟨.xenoCrystal, "Xeno Crystal", 88, 2, "#a0ad7d"⟩
  | .fringeRelic => ⟨.fringeRelic, "Fringe Relic", 240, 6, "#d6bf7e"⟩

/-- Object.values iteration order of the RESOURCES record (insertion
order of the literal). -/
def resourceOrder : List ResourceId :=
  [.scrapIron, .waterIce, .cobaltDust, .xenoCrystal, .fringeRelic]

/-- Math.min over the volumes of all resources (equals 2). -/
def MIN_RESOURCE_VOLUME : ℚ :=
  (resourceOrder.map (fun r => (RESOURCES r).volume)).foldl min
    (RESOURCES ResourceId.scrapIron).volume

structure CargoBin where
  resourceId : ResourceId
  units : ℚ
  volume : ℚ
  value : ℚ
  deriving DecidableEq

/-- The Record ResourceId CargoBin of the runtime, one field per key in
insertion order. -/
structure CargoBins where
  scrapIron : CargoBin
  waterIce : CargoBin
  cobaltDust : CargoBin
  xenoCrystal : CargoBin
  fringeRelic : CargoBin
  deriving DecidableEq

def getBin (b : CargoBins) : ResourceId → CargoBin
  | .scrapIron => b.scrapIron
  | .waterIce => b.waterIce
  | .cobaltDust => b.cobaltDust
  | .xenoCrystal => b.xenoCrystal
  | .fringeRelic => b.fringeRelic

def setBin (b : CargoBins) (r : ResourceId) (v : CargoBin) : CargoBins :=
  match r with
  | .scrapIron => { b with scrapIron := v }
  | .waterIce => { b with waterIce := v }
  | .cobaltDust => { b with cobaltDust := v }
  | .xenoCrystal => { b with xenoCrystal := v }
  | .fringeRelic => { b with fringeRelic := v }

/-- Object.values of the bins record, tagged with the key each object is
stored under (the key stands for the JavaScript object identity). -/
def binsPairs (b : CargoBins) : List (ResourceId × CargoBin) :=
  [(.scrapIron, b.scrapIron), (.waterIce, b.waterIce), (.cobaltDust, b.cobaltDust),
    (.xenoCrystal, b.xenoCrystal), (.fringeRelic, b.fringeRelic)]

inductive Tone
  | info
  | alert
  | good
  deriving DecidableEq

structure EventEntry where
  eid : ℕ
  tone : Tone
  message : String
  deriving DecidableEq

inductive GameStatus
  | active
  | won
  | lost
  deriving DecidableEq

inductive PirateState
  | quiet
  | incoming
  | disabled
  | boarding
  deriving DecidableEq

structure AsteroidSim where
  aid : ℕ
  radius : ℚ
  position : V3
  velocity : V3
  rotationSpeed : V3
  oreReserve : ℚ
  maxOreReserve : ℚ
  primaryResourceId : ResourceId
  hasPowerball : Bool
  powerballRecovered : Bool
  composition : List (ResourceId × ℚ)
  baseColor : String
  deriving DecidableEq

inductive ShotType
  | cargo
  | weapon
  deriving DecidableEq

structure CargoShot where
  sid : ℕ
  shotType : ShotType
  resourceId : Option ResourceId
  position : V3
  velocity : V3
  life : ℚ
  radius : ℚ
  damage : ℚ
  delayBonus : ℚ
  color : String
  deriving DecidableEq

/-- The twelve CONTROL_CODES as a record of key-down flags; a missing key
in the JavaScript record reads as false, which the all-false record
models. -/
structure Keys where
  keyW : Bool
  keyS : Bool
  space : Bool
  arrowLeft : Bool
  arrowRight : Bool
  arrowUp : Bool
  arrowDown : Bool
  keyG : Bool
  keyF : Bool
  keyQ : Bool
  keyE : Bool
  keyX : Bool
  deriving DecidableEq

def Keys.allUp : Keys := ⟨false, false, false, false, false, false, false, false, false, false, false, false⟩

structure ControlInput where
  keys : Keys
  deriving DecidableEq

structure RunModifiers where
  grabberRange : ℚ
  thrusterMultiplier : ℚ
  drillMultiplier : ℚ
  maxHull : ℚ
  cargoCapacity : ℚ
  weaponAmmo : ℚ
  weaponDamage : ℚ
  rammerDamageMultiplier : ℚ
  rammerSelfDamageMultiplier : ℚ
  pirateEncounterChance : ℚ
  deriving DecidableEq

structure Bounds where
  minX : ℚ
  maxX : ℚ
  minY : ℚ
  maxY : ℚ
  minZ : ℚ
  maxZ : ℚ

def ASTEROID_FIELD_BOUNDS : Bounds := ⟨-72, 82, -35, 35, -68, 68⟩

def FLIGHT_BOUNDS : Bounds := ⟨-176, 176, -72, 72, -176, 176⟩

def ASTEROID_TRAVEL_BOUNDS : Bounds :=
  ⟨FLIGHT_BOUNDS.minX - 220, FLIGHT_BOUNDS.maxX + 220, FLIGHT_BOUNDS.minY - 70,
    FLIGHT_BOUNDS.maxY + 70, FLIGHT_BOUNDS.minZ - 220, FLIGHT_BOUNDS.maxZ + 220⟩

def ASTEROID_COUNT : ℕ := 44

def PLAYER_RADIUS : ℚ := 2.05

def ASTEROID_DRAG : ℚ := 0.9992

def ASTEROID_COLLISION_RESTITUTION : ℚ := 0.82

def TOTAL_MISSION_SECONDS : ℚ := 320

def DOCK_RADIUS : ℚ := 16

def DOCK_APPROACH_RADIUS : ℚ := 30

def ORE_EXTRACT_RATE : ℚ := 1.35

def THROTTLE_STEP : ℚ := 0.2

def PIRATE_RADIUS : ℚ := 2.8

def CARGO_SHOT_RADIUS : ℚ := 0.72

def CARGO_SHOT_LIFETIME : ℚ := 5

def CARGO_SHOT_SPEED : ℚ := 34

def RAM_DELAY_MIN_IMPACT : ℚ := 2.3

def ASTEROID_PIRATE_IMPACT_MIN_SPEED : ℚ := 1.6

def ASTEROID_PIRATE_IMPACT_GRACE : ℚ := 0.58

def DOCK_REPAIR_PER_SECOND : ℚ := 14

def DOCK_UNLOAD_UNITS_PER_SECOND : ℚ := 3.2

def GRABBER_ANCHOR_PULL : ℚ := 4.4

def GRABBED_ASTEROID_DAMPING_RATE : ℚ := 0.42

def ASTEROID_FLING_BASE_SPEED : ℚ := 8.2

def ASTEROID_FLING_FORWARD_SCALE : ℚ := 1.05

def ASTEROID_FLING_THROTTLE_BONUS : ℚ := 7

def ASTEROID_FLING_PLAYER_VELOCITY_SHARE : ℚ := 0.72

def BASE_GRABBER_RANGE : ℚ := 7.5

def BASE_THRUSTER_MULTIPLIER : ℚ := 1

def BASE_DRILL_MULTIPLIER : ℚ := 1

def BASE_MAX_HULL : ℚ := 100

def BASE_CARGO_CAPACITY : ℚ := 130

def BASE_WEAPON_AMMO : ℚ := 0

def BASE_WEAPON_DAMAGE : ℚ := 0

def BASE_RAMMER_DAMAGE_MULTIPLIER : ℚ := 1

def BASE_RAMMER_SELF_DAMAGE_MULTIPLIER : ℚ := 1

def BASE_PIRATE_ENCOUNTER_CHANCE : ℚ := 1

def FREIGHTER_EDGE_X : ℚ := ASTEROID_FIELD_BOUNDS.minX - 24

def FREIGHTER_TRANSIT_START : V3 := ⟨FREIGHTER_EDGE_X, 0, ASTEROID_FIELD_BOUNDS.minZ⟩

def FREIGHTER_TRANSIT_END : V3 := ⟨FREIGHTER_EDGE_X, 0, ASTEROID_FIELD_BOUNDS.maxZ⟩

def PIRATE_HULL_MAX : ℚ := 120

/-- The GameRuntime state.  The rng closure of the source is represented
by its explicit 32-bit state in rngState; pirateTriggerAt and
pirateBoardTimer use none for the JavaScript Infinity. -/
structure GameRuntime where
  runId : ℤ
  rngState : ℤ
  elapsed : ℚ
  missionSeconds : ℚ
  countdownRate : ℚ
  freighterPosition : V3
  playerPosition : V3
  playerVelocity : V3
  throttleLevel : ℚ
  thrusterMultiplier : ℚ
  drillMultiplier : ℚ
  docked : Bool
  dockedPosition : V3
  unloadAccumulator : ℚ
  dockUnloadStartUnits : ℚ
  dockRepairStartDeficit : ℚ
  playerYaw : ℚ
  playerPitch : ℚ
  hull : ℚ
  maxHull : ℚ
  collisionGrace : ℚ
  grabbedAsteroidId : Option ℕ
  drillActive : Bool
  drillAccumulator : ℚ
  asteroidDepletionSerial : ℕ
  grabberRange : ℚ
  cargoBins : CargoBins
  cargoUsed : ℚ
  cargoCapacity : ℚ
  cargoValue : ℚ
  deliveredValue : ℚ
  powerballCargo : ℚ
  deliveredPowerballScore : ℚ
  weaponAmmo : ℚ
  weaponMaxAmmo : ℚ
  weaponDamage : ℚ
  rammerDamageMultiplier : ℚ
  rammerSelfDamageMultiplier : ℚ
  asteroids : List AsteroidSim
  cargoShots : List CargoShot
  cargoShotSerial : ℕ
  pirateState : PirateState
  piratePosition : V3
  pirateVelocity : V3
  pirateOrbitAngle : ℚ
  pirateTriggerAt : Option ℚ
  pirateBoardTimer : Option ℚ
  pirateHull : ℚ
  pirateMaxHull : ℚ
  pirateRamGrace : ℚ
  pirateAsteroidGrace : ℚ
  status : GameStatus
  outcomeReason : String
  events : List EventEntry
  eventSerial : ℕ
  prevKeys : Keys
  cargoFullWarned : Bool
  deriving DecidableEq

/-- Number.prototype.toFixed with 0 digits on a nonnegative number:
nearest integer, ties toward the larger value. -/
def jsToFixed0 (q : ℚ) : String := toString ⌊q + 1 / 2⌋

/-- Number.prototype.toFixed with 1 digit on a nonnegative number. -/
def jsToFixed1 (q : ℚ) : String :=
  let n := ⌊q * 10 + 1 / 2⌋
  toString (n / 10) ++ "." ++ toString (n % 10)

/-- Drawing from the rng closure held by the runtime. -/
def rngDraw (s : GameRuntime) : GameRuntime × ℚ :=
  let p := rngNext s.rngState
  ({ s with rngState := p.1 }, p.2)

/-- randomRange on the runtime rng. -/
def randomRangeS (s : GameRuntime) (lo hi : ℚ) : GameRuntime × ℚ :=
  let p := rngDraw s
  (p.1, lo + (hi - lo) * p.2)

def addEvent (s : GameRuntime) (message : String) (tone : Tone) : GameRuntime :=
  { s with
    eventSerial := s.eventSerial + 1,
    events := (⟨s.eventSerial + 1, tone, message⟩ :: s.events).take 6 }

/-- justPressed: the key is down now and was not down in prevKeys. -/
def justPressed (s : GameRuntime) (keys : Keys) (sel : Keys → Bool) : Bool :=
  sel keys && !(sel s.prevKeys)

/-- updatePrevKeys writes every CONTROL_CODES entry, which are exactly
the fields of Keys. -/
def updatePrevKeys (s : GameRuntime) (keys : Keys) : GameRuntime :=
  { s with prevKeys := keys }

/-- The cumulative-roll loop of weightedPick; on rounding overshoot the
last candidate is returned.  The empty case is unreachable at the one
call site (a five-element literal list). -/
def weightedPickGo (roll : ℚ) : List (ResourceId × ℚ) → ResourceId
  | [] => .scrapIron
  | (item, w) :: rest =>
    if roll - w ≤ 0 then item
    else
      match rest with
      | [] => item
      | _ :: _ => weightedPickGo (roll - w) rest

def weightedPick (st : ℤ) (weighted : List (ResourceId × ℚ)) : ℤ × ResourceId :=
  let total := weighted.foldl (fun t c => t + c.2) 0
  let p := rngNext st
  (p.1, weightedPickGo (p.2 * total) weighted)

def createCargoBins : CargoBins :=
  ⟨⟨.scrapIron, 0, 0, 0⟩, ⟨.waterIce, 0, 0, 0⟩, ⟨.cobaltDust, 0, 0, 0⟩,
    ⟨.xenoCrystal, 0, 0, 0⟩, ⟨.fringeRelic, 0, 0, 0⟩⟩

def getCargoUnitCount (s : GameRuntime) : ℚ :=
  (binsPairs s.cargoBins).foldl (fun t p => t + p.2.units) 0

def createAsteroid (fm : FloatModel) (st : ℤ) (aid : ℕ) (oreQualityBias : ℚ) :
    ℤ × AsteroidSim :=
  let qualityBias := jsClamp oreQualityBias 0 1
  let p1 := randomRangeN st 1.7 5.4
  let radius := p1.2
  let p2 := randomRangeN p1.1 6 16
  let initialOre : ℚ := max 3 ((⌊(p2.2 + radius * 1.5) * 0.5⌋ : ℤ) : ℚ)
  let p3 := rngNext p2.1
  let hasPowerball := decide (p3.2 < 0.01)
  let p4 := randomRangeN p3.1 (-54) 78
  let p5 := randomRangeN p4.1 (-30) 30
  let p6 := randomRangeN p5.1 (-60) 60
  let position : V3 := ⟨p4.2, p5.2, p6.2⟩
  let p7 := randomRangeN p6.1 0.8 2.9
  let drift := p7.2
  let p8 := randomRangeN p7.1 (-1) 1
  let p9 := randomRangeN p8.1 (-1) 1
  let p10 := randomRangeN p9.1 (-1) 1
  let velocity := ((V3.mk p8.2 p9.2 p10.2).normalize fm).smul drift
  let pw := weightedPick p10.1
    [(.scrapIron, max 1 (46 * (1 - 0.5 * qualityBias))),
      (.waterIce, max 1 (20 * (1 - 0.25 * qualityBias))),
      (.cobaltDust, max 1 (18 * (1 + 0.22 * qualityBias))),
      (.xenoCrystal, max 1 (12 * (1 + 0.9 * qualityBias))),
      (.fringeRelic, max 1 (4 * (1 + 1.7 * qualityBias)))]
  let primary := pw.2
  let composition : List (ResourceId × ℚ) :=
    [(primary, 0.56 + qualityBias * 0.14),
      (.scrapIron, max 0.08 (0.17 - qualityBias * 0.09)),
      (.waterIce, max 0.09 (0.13 - qualityBias * 0.04)),
      (.cobaltDust, 0.08 + qualityBias * 0.03),
      (.xenoCrystal, 0.05 + qualityBias * 0.06),
      (.fringeRelic, 0.01 + qualityBias * 0.04)]
  let q1 := randomRangeN pw.1 (-0.32) 0.32
  let q2 := randomRangeN q1.1 (-0.32) 0.32
  let q3 := randomRangeN q2.1 (-0.32) 0.32
  (q3.1,
    { aid := aid, radius := radius, position := position, velocity := velocity,
      rotationSpeed := ⟨q1.2, q2.2, q3.2⟩, oreReserve := initialOre,
      maxOreReserve := initialOre, primaryResourceId := primary,
      hasPowerball := hasPowerball, powerballRecovered := false,
      composition := composition, baseColor := (RESOURCES primary).color })

/-- Array.from of length ASTEROID_COUNT, creating asteroid ids 0..43 in
order while threading the rng state. -/
def createAsteroids (fm : FloatModel) (st : ℤ) (bias : ℚ) : ℤ × List AsteroidSim :=
  (List.range ASTEROID_COUNT).foldl
    (fun acc aid =>
      let p := createAsteroid fm acc.1 aid bias
      (p.1, acc.2 ++ [p.2]))
    (st, [])

def DEFAULT_RUN_MODIFIERS : RunModifiers :=
  ⟨BASE_GRABBER_RANGE, BASE_THRUSTER_MULTIPLIER, BASE_DRILL_MULTIPLIER, BASE_MAX_HULL,
    BASE_CARGO_CAPACITY, BASE_WEAPON_AMMO, BASE_WEAPON_DAMAGE,
    BASE_RAMMER_DAMAGE_MULTIPLIER, BASE_RAMMER_SELF_DAMAGE_MULTIPLIER,
    BASE_PIRATE_ENCOUNTER_CHANCE⟩

/-- createRuntime.  In the source the modifiers argument is a partial
record spread over DEFAULT_RUN_MODIFIERS; here the caller passes the
merged full record.  The seed is taken with JavaScript ToUint32 (mod
2^32). -/
def createRuntime (fm : FloatModel) (seed : ℤ) (modifiers : RunModifiers) : GameRuntime :=
  let st0 := seed % 4294967296
  let runMods := modifiers
  let pirateEncounterChance := jsClamp runMods.pirateEncounterChance 0 1
  let p1 := rngNext st0
  let pirateWillSpawn := decide (p1.2 < pirateEncounterChance)
  let oreQualityBias := jsClamp ((pirateEncounterChance - 0.16) / 0.68) 0 1
  let pa := createAsteroids fm p1.1 oreQualityBias
  let freighterPosition := FREIGHTER_TRANSIT_START
  let p2 := randomRangeN pa.1 0 (fm.pi * 2)
  let p3 : ℤ × Option ℚ :=
    if pirateWillSpawn then
      let q := randomRangeN p2.1 70 160
      (q.1, some q.2)
    else (p2.1, none)
  let runtime : GameRuntime :=
    { runId := seed, rngState := p3.1, elapsed := 0,
      missionSeconds := TOTAL_MISSION_SECONDS, countdownRate := 1,
      freighterPosition := freighterPosition,
      playerPosition := freighterPosition.add ⟨17, 0, 6⟩,
      playerVelocity := ⟨0, 0, 0⟩, throttleLevel := 0,
      thrusterMultiplier := runMods.thrusterMultiplier,
      drillMultiplier := runMods.drillMultiplier, docked := false,
      dockedPosition := ⟨17, 0, 0⟩, unloadAccumulator := 0,
      dockUnloadStartUnits := 0, dockRepairStartDeficit := 0,
      playerYaw := fm.pi / 2, playerPitch := 0, hull := runMods.maxHull,
      maxHull := runMods.maxHull, collisionGrace := 0, grabbedAsteroidId := none,
      drillActive := false, drillAccumulator := 0, asteroidDepletionSerial := 0,
      grabberRange := runMods.grabberRange, cargoBins := createCargoBins,
      cargoUsed := 0, cargoCapacity := runMods.cargoCapacity, cargoValue := 0,
      deliveredValue := 0, powerballCargo := 0, deliveredPowerballScore := 0,
      weaponAmmo := runMods.weaponAmmo, weaponMaxAmmo := runMods.weaponAmmo,
      weaponDamage := runMods.weaponDamage,
      rammerDamageMultiplier := max 1 runMods.rammerDamageMultiplier,
      rammerSelfDamageMultiplier := jsClamp runMods.rammerSelfDamageMultiplier 0.2 1,
      asteroids := pa.2, cargoShots := [], cargoShotSerial := 0,
      pirateState := .quiet,
      piratePosition := freighterPosition.add ⟨160, 16, -40⟩,
      pirateVelocity := ⟨0, 0, 0⟩, pirateOrbitAngle := p2.2,
      pirateTriggerAt := p3.2, pirateBoardTimer := none,
      pirateHull := PIRATE_HULL_MAX, pirateMaxHull := PIRATE_HULL_MAX,
      pirateRamGrace := 0, pirateAsteroidGrace := 0, status := .active,
      outcomeReason := "", events := [], eventSerial := 0,
      prevKeys := Keys.allUp, cargoFullWarned := false }
  addEvent runtime "Freighter hails: launch window open. Mine fast before we pass beyond the belt." Tone.info

def getForwardVector (fm : FloatModel) (yaw pitch : ℚ) : V3 :=
  let cp := fm.cos pitch
  (V3.mk (fm.sin yaw * cp) (fm.sin pitch) (fm.cos yaw * cp)).normalize fm

def getPlayerForward (fm : FloatModel) (s : GameRuntime) : V3 :=
  getForwardVector fm s.playerYaw s.playerPitch

/-- Comparison a ≥ t where t may be Infinity (none). -/
def geOpt (a : ℚ) : Option ℚ → Bool
  | some t => decide (a ≥ t)
  | none => false

/-- Comparison t ≤ 0 where t may be Infinity (none). -/
def optNonpos : Option ℚ → Bool
  | some t => decide (t ≤ 0)
  | none => false

/-- Math.max 0 (t - dt) where t may be Infinity. -/
def optSubClamp (a : Option ℚ) (dt : ℚ) : Option ℚ := a.map (fun t => max 0 (t - dt))

/-- t + d where t may be Infinity. -/
def optAdd (a : Option ℚ) (d : ℚ) : Option ℚ := a.map (fun t => t + d)

/-- One axis of clampPlayerToField: snap to the bound and damp the
velocity by -0.45 on that axis. -/
def clampAxis (lo hi : ℚ) (pv : ℚ × ℚ) : ℚ × ℚ :=
  let pv := if pv.1 < lo then (lo, pv.2 * (-0.45)) else pv
  if pv.1 > hi then (hi, pv.2 * (-0.45)) else pv

def clampPlayerToField (s : GameRuntime) : GameRuntime :=
  let px := clampAxis FLIGHT_BOUNDS.minX FLIGHT_BOUNDS.maxX (s.playerPosition.x, s.playerVelocity.x)
  let py := clampAxis FLIGHT_BOUNDS.minY FLIGHT_BOUNDS.maxY (s.playerPosition.y, s.playerVelocity.y)
  let pz := clampAxis FLIGHT_BOUNDS.minZ FLIGHT_BOUNDS.maxZ (s.playerPosition.z, s.playerVelocity.z)
  { s with playerPosition := ⟨px.1, py.1, pz.1⟩, playerVelocity := ⟨px.2, py.2, pz.2⟩ }

def updateFreighterTransit (s : GameRuntime) : GameRuntime :=
  let progress := jsClamp ((TOTAL_MISSION_SECONDS - s.missionSeconds) / TOTAL_MISSION_SECONDS) 0 1
  { s with freighterPosition := FREIGHTER_TRANSIT_START.lerp FREIGHTER_TRANSIT_END progress }

def applyFreighterDockActions (fm : FloatModel) (s : GameRuntime) (keys : Keys) : GameRuntime :=
  if !(justPressed s keys (·.keyE)) then s
  else if s.docked then
    addEvent
      { s with
        docked := false
        unloadAccumulator := 0
        dockUnloadStartUnits := 0
        dockRepairStartDeficit := 0 }
      "Dock clamps released. You are clear to launch." Tone.info
  else
    let distanceToFreighter := s.playerPosition.distanceTo fm s.freighterPosition
    if distanceToFreighter > DOCK_APPROACH_RADIUS then
      addEvent s "Too far from freighter docking collar." Tone.alert
    else
      let dv := s.playerPosition.sub s.freighterPosition
      let dockVector := if dv.lengthSq < 0.0001 then V3.mk 1 0 0 else dv.normalize fm
      let s :=
        if distanceToFreighter > DOCK_RADIUS then
          addEvent
            { s with playerPosition := s.freighterPosition.addScaled dockVector (DOCK_RADIUS - 1.6) }
            "Docking assist engaged. Clamp locks secured." Tone.good
        else s
      let s :=
        { s with
          docked := true
          dockedPosition := s.playerPosition.sub s.freighterPosition
          playerVelocity := ⟨0, 0, 0⟩
          throttleLevel := 0
          grabbedAsteroidId := none
          unloadAccumulator := 0 }
      let s :=
        { s with
          dockUnloadStartUnits := getCargoUnitCount s + s.powerballCargo
          dockRepairStartDeficit := max 0 (s.maxHull - s.hull) }
      addEvent s "Docking complete. Cargo transfer and repairs underway." Tone.good

def triggerPirateEvent (s : GameRuntime) : GameRuntime :=
  let p := randomRangeS s 40 68
  let s := p.1
  addEvent
    { s with
      pirateState := .incoming
      pirateBoardTimer := some p.2
      pirateHull := s.pirateMaxHull
      pirateRamGrace := 0
      pirateAsteroidGrace := 0
      piratePosition := s.freighterPosition.add ⟨22, 9, -18⟩
      pirateVelocity := ⟨0, 0, 0⟩ }
    "Distress call: pirate raider inbound. Hold it off before boarding." Tone.alert

def updatePirate (fm : FloatModel) (s : GameRuntime) (dt : ℚ) : GameRuntime :=
  let s :=
    if s.pirateState = .quiet && geOpt s.elapsed s.pirateTriggerAt then
      triggerPirateEvent s
    else s
  if s.pirateState ≠ .incoming then s
  else
    let s := { s with pirateBoardTimer := optSubClamp s.pirateBoardTimer dt }
    let s := { s with pirateOrbitAngle := s.pirateOrbitAngle + dt * 0.85 }
    let orbitRadius := 16 + fm.sin (s.elapsed * 0.55) * 2.8
    let pirateTarget := s.freighterPosition.add
      ⟨fm.cos s.pirateOrbitAngle * orbitRadius,
        2.4 + fm.sin (s.pirateOrbitAngle * 2.2) * 1.7,
        fm.sin s.pirateOrbitAngle * orbitRadius⟩
    let toTarget := pirateTarget.sub s.piratePosition
    let distance := toTarget.length fm
    let s :=
      if distance > 0.001 then
        let dir := (toTarget.normalize fm).smul 18
        let vel := s.pirateVelocity.lerp dir (1 - fm.exp (-dt * 2.3))
        { s with pirateVelocity := vel, piratePosition := s.piratePosition.addScaled vel dt }
      else s
    if optNonpos s.pirateBoardTimer then
      let s :=
        { s with
          pirateState := .boarding
          piratePosition := s.freighterPosition.add ⟨5, 0.2, -2⟩
          pirateVelocity := ⟨0, 0, 0⟩
          status := .lost
          outcomeReason := "Pirates boarded the freighter before it cleared the belt." }
      addEvent s s.outcomeReason Tone.alert
    else s

def disablePirate (s : GameRuntime) : GameRuntime :=
  addEvent
    { s with
      pirateState := .disabled
      pirateVelocity := ⟨0, 0, 0⟩
      pirateBoardTimer := none }
    "Pirate drive core disabled. Boarding threat neutralized." Tone.good

def applyPirateDamage (s : GameRuntime) (damage : ℚ) : GameRuntime × Bool :=
  if s.pirateState ≠ PirateState.incoming ∨ damage ≤ 0 then (s, false)
  else
    let s := { s with pirateHull := max 0 (s.pirateHull - damage) }
    if s.pirateHull > 0 then (s, false) else (disablePirate s, true)

def smoothAxis (fm : FloatModel) (current target rate dt : ℚ) : ℚ :=
  let alpha := 1 - fm.exp (-rate * dt)
  current + (target - current) * alpha

/-- justPressed on explicit previous and current key snapshots. -/
def justPressedK (prev keys : Keys) (sel : Keys → Bool) : Bool := sel keys && !(sel prev)

/-- The flight model of updatePlayerControlWithInput computed on the five
fields it mutates (yaw, pitch, throttle level, velocity, position); the
wrapper below writes them back in a single update.  The brake branch
returns before integration and clamping, as in the source. -/
def playerControlCore (fm : FloatModel) (hull maxHull thrusterMultiplier : ℚ)
    (prev keys : Keys) (dt : ℚ) (yaw0 pitch0 throttle0 : ℚ) (vel0 pos0 : V3) :
    ℚ × ℚ × ℚ × V3 × V3 :=
  let hullFactor := jsClamp (hull / maxHull) 0.25 1
  let keyboardYaw : ℚ := (if keys.arrowLeft then 1 else 0) - (if keys.arrowRight then 1 else 0)
  let keyboardPitch : ℚ := (if keys.arrowUp then 1 else 0) - (if keys.arrowDown then 1 else 0)
  let yawRate := 1.7 * hullFactor + 0.35
  let pitchRate := 1.3 * hullFactor + 0.3
  let yaw := yaw0 + keyboardYaw * yawRate * dt
  let pitch := jsClamp (pitch0 + keyboardPitch * pitchRate * dt) (-1.1) 1.1
  let forward := getForwardVector fm yaw pitch
  let brake := keys.keyX
  let throttle :=
    if justPressedK prev keys (·.keyW) then jsClamp (throttle0 + THROTTLE_STEP) 0 1
    else throttle0
  let throttle :=
    if justPressedK prev keys (·.keyS) then jsClamp (throttle - THROTTLE_STEP) 0 1
    else throttle
  if brake then (yaw, pitch, 0, ⟨0, 0, 0⟩, pos0)
  else
    let targetForwardSpeed := 16 * hullFactor * throttle * thrusterMultiplier
    let currentForwardSpeed := max 0 (vel0.dot forward)
    let lateralVelocity := vel0.addScaled forward (-(vel0.dot forward))
    let accelRate := 10 * hullFactor + 4
    let coastDecelRate := 5 + (1 - throttle) * 4
    let speedRate := if targetForwardSpeed ≥ currentForwardSpeed then accelRate else coastDecelRate
    let nextForwardSpeed := smoothAxis fm currentForwardSpeed targetForwardSpeed speedRate dt
    let lateralVelocity := lateralVelocity.smul (fm.exp (-dt * 10))
    let vel := (forward.smul nextForwardSpeed).add lateralVelocity
    let maxSpeed := (6 + hullFactor * 13) * thrusterMultiplier
    let vel := if vel.lengthSq > maxSpeed * maxSpeed then vel.setLength fm maxSpeed else vel
    let pos := pos0.addScaled vel dt
    let px := clampAxis FLIGHT_BOUNDS.minX FLIGHT_BOUNDS.maxX (pos.x, vel.x)
    let py := clampAxis FLIGHT_BOUNDS.minY FLIGHT_BOUNDS.maxY (pos.y, vel.y)
    let pz := clampAxis FLIGHT_BOUNDS.minZ FLIGHT_BOUNDS.maxZ (pos.z, vel.z)
    (yaw, pitch, throttle, ⟨px.2, py.2, pz.2⟩, ⟨px.1, py.1, pz.1⟩)

def updatePlayerControlWithInput (fm : FloatModel) (s : GameRuntime) (dt : ℚ)
    (input : ControlInput) : GameRuntime :=
  let r := playerControlCore fm s.hull s.maxHull s.thrusterMultiplier s.prevKeys input.keys
    dt s.playerYaw s.playerPitch s.throttleLevel s.playerVelocity s.playerPosition
  { s with
    playerYaw := r.1
    playerPitch := r.2.1
    throttleLevel := r.2.2.1
    playerVelocity := r.2.2.2.1
    playerPosition := r.2.2.2.2 }

/-- One axis of the asteroid travel-bounds clamp: zero the outward
velocity component. -/
def asteroidClampAxis (lo hi : ℚ) (pv : ℚ × ℚ) : ℚ × ℚ :=
  let pv := if pv.1 < lo then (lo, if pv.2 < 0 then 0 else pv.2) else pv
  if pv.1 > hi then (hi, if pv.2 > 0 then 0 else pv.2) else pv

def updateAsteroidBody (fm : FloatModel) (a : AsteroidSim) (dt : ℚ) : AsteroidSim :=
  let a := { a with position := a.position.addScaled a.velocity dt }
  let a := { a with velocity := a.velocity.smul (fm.powq ASTEROID_DRAG (dt * 60)) }
  let px := asteroidClampAxis (ASTEROID_TRAVEL_BOUNDS.minX + a.radius)
    (ASTEROID_TRAVEL_BOUNDS.maxX - a.radius) (a.position.x, a.velocity.x)
  let py := asteroidClampAxis (ASTEROID_TRAVEL_BOUNDS.minY + a.radius)
    (ASTEROID_TRAVEL_BOUNDS.maxY - a.radius) (a.position.y, a.velocity.y)
  let pz := asteroidClampAxis (ASTEROID_TRAVEL_BOUNDS.minZ + a.radius)
    (ASTEROID_TRAVEL_BOUNDS.maxZ - a.radius) (a.position.z, a.velocity.z)
  { a with position := ⟨px.1, py.1, pz.1⟩, velocity := ⟨px.2, py.2, pz.2⟩ }

/-- asteroids.find of the source: first asteroid with the given id. -/
def findAsteroid (l : List AsteroidSim) (aid : ℕ) : Option AsteroidSim :=
  l.find? (fun c => c.aid == aid)

/-- Write back a mutated asteroid object: replace the first list element
with the given id (ids are unique within a run). -/
def setAsteroidById : List AsteroidSim → ℕ → AsteroidSim → List AsteroidSim
  | [], _, _ => []
  | a :: rest, aid, v => if a.aid = aid then v :: rest else a :: setAsteroidById rest aid v

def findNearestAsteroidForGrabber (fm : FloatModel) (s : GameRuntime) :
    Option (AsteroidSim × ℚ) :=
  s.asteroids.foldl
    (fun acc a =>
      let surfaceDistance := a.position.distanceTo fm s.playerPosition - a.radius
      match acc with
      | none => some (a, surfaceDistance)
      | some (_, best) => if surfaceDistance < best then some (a, surfaceDistance) else acc)
    none

def updateGrabber (fm : FloatModel) (s : GameRuntime) (keys : Keys) : GameRuntime :=
  if !(justPressed s keys (·.keyG)) then s
  else
    match s.grabbedAsteroidId with
    | some gid =>
      let s :=
        match findAsteroid s.asteroids gid with
        | some asteroid =>
          let forward := getPlayerForward fm s
          let forwardSpeed := max 0 (s.playerVelocity.dot forward)
          let flingSpeed := ASTEROID_FLING_BASE_SPEED +
            forwardSpeed * ASTEROID_FLING_FORWARD_SCALE +
            s.throttleLevel * ASTEROID_FLING_THROTTLE_BONUS
          let v := (asteroid.velocity.addScaled forward flingSpeed).addScaled
            s.playerVelocity ASTEROID_FLING_PLAYER_VELOCITY_SHARE
          let maxFlingSpeed := 46 + asteroid.radius * 4.5
          let v :=
            if v.lengthSq > maxFlingSpeed * maxFlingSpeed then v.setLength fm maxFlingSpeed
            else v
          addEvent
            { s with asteroids := setAsteroidById s.asteroids gid { asteroid with velocity := v } }
            ("Grabber disengaged. Asteroid #" ++ toString asteroid.aid ++ " slung forward.")
            Tone.info
        | none => addEvent s "Grabber disengaged." Tone.info
      { s with grabbedAsteroidId := none }
    | none =>
      match findNearestAsteroidForGrabber fm s with
      | some (asteroid, surfaceDistance) =>
        if surfaceDistance ≤ s.grabberRange then
          addEvent { s with grabbedAsteroidId := some asteroid.aid, drillAccumulator := 0 }
            ("Grabber latched asteroid #" ++ toString asteroid.aid ++ ".") Tone.good
        else addEvent s "No asteroid in grabber range." Tone.alert
      | none => addEvent s "No asteroid in grabber range." Tone.alert

def moveGrabbedAsteroid (fm : FloatModel) (s : GameRuntime) (dt : ℚ) : GameRuntime :=
  match s.grabbedAsteroidId with
  | none => s
  | some gid =>
    match findAsteroid s.asteroids gid with
    | none => { s with grabbedAsteroidId := none }
    | some asteroid =>
      let forward := getPlayerForward fm s
      let anchorPoint := s.playerPosition.addScaled forward (asteroid.radius + 4.2)
      let toAnchor := anchorPoint.sub asteroid.position
      let v := (asteroid.velocity.addScaled toAnchor (dt * GRABBER_ANCHOR_PULL)).smul
        (fm.exp (-dt * GRABBED_ASTEROID_DAMPING_RATE))
      { s with asteroids := setAsteroidById s.asteroids gid { asteroid with velocity := v } }

/-- The cumulative-cursor loop of sampleAsteroidResource; falls back to
the last composition entry. -/
def sampleGo (roll cursor : ℚ) : List (ResourceId × ℚ) → ResourceId
  | [] => .scrapIron
  | (rid, w) :: rest =>
    let c := cursor + w
    if roll ≤ c then rid
    else
      match rest with
      | [] => rid
      | _ :: _ => sampleGo roll c rest

def sampleAsteroidResource (s : GameRuntime) (asteroid : AsteroidSim) :
    GameRuntime × ResourceId :=
  let p := rngDraw s
  (p.1, sampleGo p.2 0 asteroid.composition)

def addCargo (s : GameRuntime) (resourceId : ResourceId) (units : ℚ) :
    GameRuntime × ℚ :=
  let rdef := RESOURCES resourceId
  let remainingCapacity := max 0 (s.cargoCapacity - s.cargoUsed)
  let maxUnitsByCapacity : ℚ := ((⌊remainingCapacity / rdef.volume⌋ : ℤ) : ℚ)
  let acceptedUnits := min units maxUnitsByCapacity
  if acceptedUnits ≤ 0 then
    if !s.cargoFullWarned then
      (addEvent { s with cargoFullWarned := true }
        "Cargo hold at capacity. Return to freighter to unload." Tone.alert, 0)
    else (s, 0)
  else
    let volume := acceptedUnits * rdef.volume
    let bin := getBin s.cargoBins resourceId
    let bin :=
      { bin with
        units := bin.units + acceptedUnits
        volume := bin.volume + volume
        value := bin.value + acceptedUnits * rdef.value }
    ({ s with
        cargoBins := setBin s.cargoBins resourceId bin
        cargoUsed := s.cargoUsed + volume
        cargoValue := s.cargoValue + acceptedUnits * rdef.value }, acceptedUnits)

/-- The sort key of takeCargoUnitForLaunch: value density b.value / max 1 b.units. -/
def launchKey (b : CargoBin) : ℚ := b.value / max 1 b.units

/-- The sort key of takeCargoUnitForUnload: the static resource value of
the resource recorded on the bin. -/
def unloadKey (b : CargoBin) : ℚ := (RESOURCES b.resourceId).value

/-- First element of the stable descending sort by the key: the earliest
listed element whose key is maximal. -/
def pickMaxBy (key : CargoBin → ℚ) :
    List (ResourceId × CargoBin) → Option (ResourceId × CargoBin)
  | [] => none
  | p :: rest =>
    match pickMaxBy key rest with
    | none => some p
    | some q => if key q.2 > key p.2 then some q else some p

def takeCargoUnitForLaunch (s : GameRuntime) : GameRuntime × Option ResourceId :=
  let candidates := (binsPairs s.cargoBins).filter (fun p => decide (p.2.units > 0))
  match pickMaxBy launchKey candidates with
  | none => (s, none)
  | some (slot, bin) =>
    let rdef := RESOURCES bin.resourceId
    let bin :=
      { bin with
        units := bin.units - 1
        volume := max 0 (bin.volume - rdef.volume)
        value := max 0 (bin.value - rdef.value) }
    ({ s with
        cargoBins := setBin s.cargoBins slot bin
        cargoUsed := max 0 (s.cargoUsed - rdef.volume)
        cargoValue := max 0 (s.cargoValue - rdef.value)
        cargoFullWarned := false }, some bin.resourceId)

def takeCargoUnitForUnload (s : GameRuntime) : GameRuntime × Option ResourceId :=
  let candidates := (binsPairs s.cargoBins).filter (fun p => decide (p.2.units > 0))
  match pickMaxBy unloadKey candidates with
  | none => (s, none)
  | some (slot, bin) =>
    let rdef := RESOURCES bin.resourceId
    let bin :=
      { bin with
        units := bin.units - 1
        volume := max 0 (bin.volume - rdef.volume)
        value := max 0 (bin.value - rdef.value) }
    ({ s with
        cargoBins := setBin s.cargoBins slot bin
        cargoUsed := max 0 (s.cargoUsed - rdef.volume)
        cargoValue := max 0 (s.cargoValue - rdef.value)
        cargoFullWarned := false }, some bin.resourceId)

/-- The unload while-loop of updateDockedSystems.  Every iteration that
recurses lowers the accumulator by exactly 1, so the floor of the
accumulator (the fuel passed in) bounds the iteration count and the fuel
never runs out while the accumulator is still at least 1. -/
def unloadLoop (s : GameRuntime) : ℕ → GameRuntime
  | 0 => s
  | fuel + 1 =>
    if s.unloadAccumulator ≥ 1 then
      if s.powerballCargo > 0 then
        let s :=
          { s with
            powerballCargo := s.powerballCargo - 1
            deliveredPowerballScore := s.deliveredPowerballScore + 1
            unloadAccumulator := s.unloadAccumulator - 1 }
        unloadLoop
          (addEvent s "Powerball transferred to freighter vault. Delivered score +1." Tone.good)
          fuel
      else
        let p := takeCargoUnitForUnload s
        match p.2 with
        | none => p.1
        | some rid =>
          unloadLoop
            { p.1 with
              unloadAccumulator := p.1.unloadAccumulator - 1
              deliveredValue := p.1.deliveredValue + (RESOURCES rid).value }
            fuel
    else s

def updateDockedSystems (s : GameRuntime) (dt : ℚ) : GameRuntime :=
  if !s.docked then s
  else
    let s :=
      { s with
        playerPosition := s.freighterPosition.add s.dockedPosition
        playerVelocity := ⟨0, 0, 0⟩
        throttleLevel := 0
        grabbedAsteroidId := none
        drillActive := false }
    let hadCargoBefore := s.cargoValue > 0 ∨ s.powerballCargo > 0
    let s := { s with unloadAccumulator := s.unloadAccumulator + dt * DOCK_UNLOAD_UNITS_PER_SECOND }
    let s := unloadLoop s (⌊s.unloadAccumulator⌋.toNat)
    let s :=
      if hadCargoBefore ∧ s.cargoValue ≤ 0 ∧ s.powerballCargo ≤ 0 then
        addEvent s "Cargo unload complete. Hold is now empty." Tone.good
      else s
    let hullBefore := s.hull
    let s := { s with hull := min s.maxHull (s.hull + DOCK_REPAIR_PER_SECOND * dt) }
    if hullBefore < s.maxHull ∧ s.hull ≥ s.maxHull then
      addEvent s "Hull repairs complete." Tone.good
    else s

def launchCargoShot (fm : FloatModel) (s : GameRuntime) (keys : Keys) : GameRuntime :=
  if !(justPressed s keys (·.space)) then s
  else
    let p := takeCargoUnitForLaunch s
    match p.2 with
    | none => addEvent p.1 "Cargo launch failed. Hold is empty." Tone.alert
    | some resourceId =>
      let s := { p.1 with cargoShotSerial := p.1.cargoShotSerial + 1 }
      let forward := getPlayerForward fm s
      let rdef := RESOURCES resourceId
      let damage := 8 + rdef.value / 12
      let shot : CargoShot :=
        { sid := s.cargoShotSerial, shotType := .cargo, resourceId := some resourceId,
          position := s.playerPosition.addScaled forward (PLAYER_RADIUS + 1.1),
          velocity := (forward.smul CARGO_SHOT_SPEED).add s.playerVelocity,
          life := CARGO_SHOT_LIFETIME, radius := CARGO_SHOT_RADIUS, damage := damage,
          delayBonus := 2 + damage * 0.16, color := rdef.color }
      addEvent { s with cargoShots := s.cargoShots ++ [shot] }
        (rdef.label ++ " canister launched.") Tone.info

def launchWeaponShot (fm : FloatModel) (s : GameRuntime) (keys : Keys) : GameRuntime :=
  if !(justPressed s keys (·.keyQ)) then s
  else if s.weaponMaxAmmo ≤ 0 ∨ s.weaponDamage ≤ 0 then
    addEvent s "No weapon system installed." Tone.alert
  else if s.weaponAmmo ≤ 0 then addEvent s "Weapon ammo depleted." Tone.alert
  else
    let s := { s with weaponAmmo := s.weaponAmmo - 1, cargoShotSerial := s.cargoShotSerial + 1 }
    let forward := getPlayerForward fm s
    let damage := s.weaponDamage
    let shot : CargoShot :=
      { sid := s.cargoShotSerial, shotType := .weapon, resourceId := none,
        position := s.playerPosition.addScaled forward (PLAYER_RADIUS + 1.1),
        velocity := (forward.smul (CARGO_SHOT_SPEED * 1.25)).add s.playerVelocity,
        life := CARGO_SHOT_LIFETIME, radius := CARGO_SHOT_RADIUS * 0.85, damage := damage,
        delayBonus := 1.2 + damage * 0.06, color := "#ff955a" }
    { s with cargoShots := s.cargoShots ++ [shot] }

/-- The tail of a successful extraction iteration: recover a powerball on
first extraction, decrement the ore reserve, and auto-release the grabber
on depletion.  The Bool result tells whether the loop continues. -/
def drillYield (s : GameRuntime) (ast : AsteroidSim) : GameRuntime × AsteroidSim × Bool :=
  let par : GameRuntime × AsteroidSim :=
    if ast.hasPowerball && !ast.powerballRecovered then
      (addEvent { s with powerballCargo := s.powerballCargo + 1 }
        "Powerball recovered. Stowed aboard for delivery." Tone.good,
        { ast with powerballRecovered := true })
    else (s, ast)
  let s := par.1
  let ast : AsteroidSim := { par.2 with oreReserve := par.2.oreReserve - 1 }
  if ast.oreReserve ≤ (0 : ℚ) then
    let ast := { ast with oreReserve := 0 }
    let s := addEvent
      { s with
        asteroidDepletionSerial := s.asteroidDepletionSerial + 1
        grabbedAsteroidId := none }
      "Target asteroid depleted. Grabber auto-released." Tone.info
    (s, ast, false)
  else (s, ast, true)

/-- The per-tick unit-count roll: 1 unit for the rarest resource, else
1 + floor(rng() * 2). -/
def drillUnits (s : GameRuntime) (resourceId : ResourceId) : GameRuntime × ℚ :=
  if resourceId = ResourceId.fringeRelic then (s, 1)
  else
    let d := rngDraw s
    (d.1, 1 + ((⌊d.2 * 2⌋ : ℤ) : ℚ))

/-- One iteration of the extraction while-loop of updateDrill (entered
with accumulator at least 1), on the runtime and the grabbed asteroid
(the shared mutable object of the source, written back by the caller).
The Bool result tells whether the loop continues (no break hit). -/
def drillTick (s : GameRuntime) (ast : AsteroidSim) : GameRuntime × AsteroidSim × Bool :=
  let s := { s with drillAccumulator := s.drillAccumulator - 1 }
  let pr := sampleAsteroidResource s ast
  let pu := drillUnits pr.1 pr.2
  let pm := addCargo pu.1 pr.2 pu.2
  if pm.2 ≤ 0 then ({ pm.1 with drillActive := false }, ast, false)
  else drillYield pm.1 ast

/-- The extraction while-loop of updateDrill.  Every recursing iteration
lowers the accumulator by exactly 1, so floor of the accumulator bounds
the iteration count. -/
def drillLoop (s : GameRuntime) (ast : AsteroidSim) : ℕ → GameRuntime × AsteroidSim
  | 0 => (s, ast)
  | fuel + 1 =>
    if s.drillAccumulator ≥ 1 then
      let t := drillTick s ast
      if t.2.2 then drillLoop t.1 t.2.1 fuel else (t.1, t.2.1)
    else (s, ast)

def updateDrill (s : GameRuntime) (dt : ℚ) (keys : Keys) : GameRuntime :=
  if !keys.keyF then { s with drillActive := false }
  else
    match s.grabbedAsteroidId with
    | none => { s with drillActive := false }
    | some gid =>
      let remainingCapacity := s.cargoCapacity - s.cargoUsed
      if remainingCapacity < MIN_RESOURCE_VOLUME then
        let s :=
          if !s.cargoFullWarned then
            addEvent { s with cargoFullWarned := true }
              "Cargo hold has no usable space left. Return to freighter to unload." Tone.alert
          else s
        { s with drillActive := false }
      else
        match findAsteroid s.asteroids gid with
        | none => { s with grabbedAsteroidId := none, drillActive := false }
        | some asteroid =>
          if asteroid.oreReserve ≤ 0 then
            addEvent { s with grabbedAsteroidId := none, drillActive := false }
              "Target asteroid depleted. Seek another vein." Tone.info
          else
            let s :=
              { s with
                drillActive := true
                drillAccumulator := s.drillAccumulator + dt * ORE_EXTRACT_RATE * s.drillMultiplier }
            let p := drillLoop s asteroid (⌊s.drillAccumulator⌋.toNat)
            { p.1 with asteroids := setAsteroidById p.1.asteroids gid p.2 }

/-- The body of the pairwise asteroid collision loop at indices i and j. -/
def collidePair (fm : FloatModel) (l : List AsteroidSim) (i j : ℕ) : List AsteroidSim :=
  match l[i]?, l[j]? with
  | some a, some b =>
    let delta := a.position.sub b.position
    let distance := max (delta.length fm) 0.0001
    let minDistance := a.radius + b.radius
    if distance ≥ minDistance then l
    else
      let normal := delta.smul (1 / distance)
      let overlap := minDistance - distance
      let a := { a with position := a.position.addScaled normal (overlap * 0.5) }
      let b := { b with position := b.position.addScaled normal (-(overlap * 0.5)) }
      let relativeSpeed := (a.velocity.sub b.velocity).dot normal
      if relativeSpeed < 0 then
        let impulse := (-(1 + ASTEROID_COLLISION_RESTITUTION) * relativeSpeed) / 2
        let a := { a with velocity := a.velocity.addScaled normal impulse }
        let b := { b with velocity := b.velocity.addScaled normal (-impulse) }
        (l.set i a).set j b
      else (l.set i a).set j b
  | _, _ => l

def resolveAsteroidCollisions (fm : FloatModel) (s : GameRuntime) : GameRuntime :=
  let n := s.asteroids.length
  { s with
    asteroids :=
      (List.range n).foldl
        (fun l i =>
          (List.range n).foldl (fun l2 j => if i < j then collidePair fm l2 i j else l2) l)
        s.asteroids }

/-- The for-loop of resolveAsteroidPirateImpacts over asteroid indices,
including the break once the pirate is no longer incoming. -/
def pirateImpactLoop (fm : FloatModel) (s : GameRuntime) : List ℕ → GameRuntime
  | [] => s
  | i :: rest =>
    match s.asteroids[i]? with
    | none => pirateImpactLoop fm s rest
    | some asteroid =>
      let delta := asteroid.position.sub s.piratePosition
      let distance := max (delta.length fm) 0.0001
      let minDistance := asteroid.radius + PIRATE_RADIUS
      if distance ≥ minDistance then pirateImpactLoop fm s rest
      else
        let normal := delta.smul (1 / distance)
        let overlap := minDistance - distance
        let asteroid := { asteroid with position := asteroid.position.addScaled normal (overlap * 0.72) }
        let s := { s with piratePosition := s.piratePosition.addScaled normal (-(overlap * 0.28)) }
        let relative := asteroid.velocity.sub s.pirateVelocity
        let impact := max 0 (-(relative.dot normal))
        let s :=
          if s.pirateAsteroidGrace ≤ 0 ∧ impact > ASTEROID_PIRATE_IMPACT_MIN_SPEED then
            let massFactor := 0.7 + asteroid.radius * 0.32
            let pd := randomRangeS s 14 21
            let pirateDamage := impact * pd.2 * massFactor
            let ap := applyPirateDamage pd.1 pirateDamage
            let s :=
              if ap.2 then
                addEvent ap.1
                  ("Asteroid strike shredded pirate hull (-" ++ jsToFixed0 pirateDamage ++
                    "). Boarding threat ended.") Tone.good
              else
                let delay := min 18 (4 + impact * 1.85 + asteroid.radius * 0.55)
                addEvent { ap.1 with pirateBoardTimer := optAdd ap.1.pirateBoardTimer delay }
                  ("Asteroid impact on pirate: -" ++ jsToFixed0 pirateDamage ++
                    " hull, boarding delayed +" ++ jsToFixed1 delay ++ "s.") Tone.good
            { s with pirateAsteroidGrace := ASTEROID_PIRATE_IMPACT_GRACE }
          else s
        let asteroid := { asteroid with velocity := asteroid.velocity.addScaled normal (impact * 0.45) }
        let s := { s with asteroids := s.asteroids.set i asteroid }
        if s.pirateState = PirateState.incoming then
          pirateImpactLoop fm
            { s with pirateVelocity := s.pirateVelocity.addScaled normal (-(impact * 0.9)) } rest
        else s

def resolveAsteroidPirateImpacts (fm : FloatModel) (s : GameRuntime) (dt : ℚ) : GameRuntime :=
  if s.pirateState ≠ PirateState.incoming then s
  else
    let s := { s with pirateAsteroidGrace := max 0 (s.pirateAsteroidGrace - dt) }
    pirateImpactLoop fm s (List.range s.asteroids.length)

/-- The body of the player-asteroid impact loop for one asteroid. -/
def playerImpactBody (fm : FloatModel) (s : GameRuntime) (asteroid : AsteroidSim) : GameRuntime :=
  let delta := s.playerPosition.sub asteroid.position
  let distance := max (delta.length fm) 0.0001
  let minDistance := PLAYER_RADIUS + asteroid.radius
  if distance ≥ minDistance then s
  else
    let normal := delta.smul (1 / distance)
    let overlap := minDistance - distance
    let s := { s with playerPosition := s.playerPosition.addScaled normal (overlap + 0.05) }
    let relative := s.playerVelocity.sub asteroid.velocity
    let impact := max 0 (-(relative.dot normal))
    let s :=
      if s.collisionGrace ≤ 0 ∧ impact > 0.75 then
        let pd := randomRangeS s 6.4 9.8
        let damage := impact * pd.2
        addEvent
          { pd.1 with hull := max 0 (pd.1.hull - damage), collisionGrace := 0.33 }
          ("Hull impact registered (-" ++ jsToFixed0 damage ++ ").") Tone.alert
      else s
    { s with playerVelocity := s.playerVelocity.addScaled normal (impact * 0.45) }

def resolvePlayerAsteroidImpacts (fm : FloatModel) (s : GameRuntime) (dt : ℚ) : GameRuntime :=
  let s := { s with collisionGrace := max 0 (s.collisionGrace - dt) }
  s.asteroids.foldl (playerImpactBody fm) s

def resolvePlayerPirateImpact (fm : FloatModel) (s : GameRuntime) (dt : ℚ) : GameRuntime :=
  if s.pirateState ≠ PirateState.incoming then s
  else
    let s := { s with pirateRamGrace := max 0 (s.pirateRamGrace - dt) }
    let delta := s.playerPosition.sub s.piratePosition
    let distance := max (delta.length fm) 0.0001
    let minDistance := PLAYER_RADIUS + PIRATE_RADIUS
    if distance ≥ minDistance then s
    else
      let normal := delta.smul (1 / distance)
      let overlap := minDistance - distance
      let s :=
        { s with
          playerPosition := s.playerPosition.addScaled normal (overlap * 0.65)
          piratePosition := s.piratePosition.addScaled normal (-(overlap * 0.35)) }
      let relative := s.playerVelocity.sub s.pirateVelocity
      let impact := max 0 (-(relative.dot normal))
      let s :=
        if s.pirateRamGrace ≤ 0 ∧ impact > RAM_DELAY_MIN_IMPACT then
          let pd1 := randomRangeS s 4.6 7.2
          let playerDamage := impact * pd1.2 * pd1.1.rammerSelfDamageMultiplier
          let s := { pd1.1 with hull := max 0 (pd1.1.hull - playerDamage) }
          let pd2 := randomRangeS s 7.8 11.2
          let pirateDamage := impact * pd2.2 * pd2.1.rammerDamageMultiplier
          let ap := applyPirateDamage pd2.1 pirateDamage
          let delay := min 12 (3 + impact * 1.4)
          let s :=
            { ap.1 with
              pirateBoardTimer := optAdd ap.1.pirateBoardTimer delay
              pirateRamGrace := 0.75 }
          let delayLabel :=
            if ap.2 then "Boarding threat ended."
            else "Boarding delayed +" ++ jsToFixed1 delay ++ "s."
          addEvent s
            ("Ramming impact: pirate -" ++ jsToFixed0 pirateDamage ++ " hull, you -" ++
              jsToFixed0 playerDamage ++ " hull. " ++ delayLabel)
            (if ap.2 then Tone.good else Tone.alert)
        else s
      let s := { s with playerVelocity := s.playerVelocity.addScaled normal (impact * 0.6) }
      if s.pirateState = PirateState.incoming then
        { s with pirateVelocity := s.pirateVelocity.addScaled normal (-(impact * 0.5)) }
      else s

def shotInBounds (p : V3) : Bool :=
  decide (p.x ≥ FLIGHT_BOUNDS.minX - 28) && decide (p.x ≤ FLIGHT_BOUNDS.maxX + 28) &&
    decide (p.y ≥ FLIGHT_BOUNDS.minY - 28) && decide (p.y ≤ FLIGHT_BOUNDS.maxY + 28) &&
    decide (p.z ≥ FLIGHT_BOUNDS.minZ - 28) && decide (p.z ≤ FLIGHT_BOUNDS.maxZ + 28)

/-- The pirate-overlap check inside the updateCargoShots loop for one
already-advanced shot: on a hit, apply the damage, extend the boarding
timer, log the event, and report that the shot was consumed. -/
def shotHitPirate (fm : FloatModel) (s : GameRuntime) (shot : CargoShot) :
    GameRuntime × Bool :=
  if s.pirateState = PirateState.incoming then
    let distance := shot.position.distanceTo fm s.piratePosition
    if distance ≤ shot.radius + PIRATE_RADIUS then
      let ap := applyPirateDamage s shot.damage
      let s2 := { ap.1 with pirateBoardTimer := optAdd ap.1.pirateBoardTimer shot.delayBonus }
      let s2 :=
        if shot.shotType = ShotType.weapon then
          addEvent s2
            ("Weapon hit confirmed. Boarding delayed +" ++ jsToFixed1 shot.delayBonus ++ "s.")
            Tone.good
        else
          match shot.resourceId with
          | some rid =>
            addEvent s2
              ("Pirate hit with " ++ (RESOURCES rid).label ++ ". Boarding delayed +" ++
                jsToFixed1 shot.delayBonus ++ "s.") Tone.good
          | none => s2
      let s2 := if ap.2 then { s2 with pirateBoardTimer := none } else s2
      (s2, true)
    else (s, false)
  else (s, false)

/-- The body of the updateCargoShots loop: advance one shot, drop it on
expiry or when out of bounds, resolve a pirate hit, and otherwise keep it
on the active list. -/
def cargoShotBody (fm : FloatModel) (dt : ℚ) (acc : GameRuntime × List CargoShot)
    (shot0 : CargoShot) : GameRuntime × List CargoShot :=
  let s := acc.1
  let shot := { shot0 with life := shot0.life - dt, position := shot0.position.addScaled shot0.velocity dt }
  if shot.life ≤ 0 ∨ shotInBounds shot.position = false then (s, acc.2)
  else
    let hp := shotHitPirate fm s shot
    if hp.2 then (hp.1, acc.2) else (hp.1, acc.2 ++ [shot])

def updateCargoShots (fm : FloatModel) (s : GameRuntime) (dt : ℚ) : GameRuntime :=
  let r := s.cargoShots.foldl (cargoShotBody fm dt) (s, [])
  { r.1 with cargoShots := r.2 }

def evaluateMissionOutcome (s : GameRuntime) : GameRuntime :=
  if s.status ≠ GameStatus.active then s
  else if s.hull ≤ 0 then
    let s :=
      { s with
        status := .lost
        outcomeReason := "Your mining craft vented atmosphere and went dark." }
    addEvent s s.outcomeReason Tone.alert
  else if s.missionSeconds ≤ 0 then
    if s.docked then
      let s :=
        { s with
          status := .won
          outcomeReason := "Freighter cleared the belt with you secured in docking clamps. You survived this run." }
      addEvent s s.outcomeReason Tone.good
    else
      let s :=
        { s with
          status := .lost
          outcomeReason := "Freighter cleared the belt while you were undocked. You were left in the rocks." }
      addEvent s s.outcomeReason Tone.alert
  else s

def stepRuntime (fm : FloatModel) (s : GameRuntime) (dtRaw : ℚ)
    (controlInput : ControlInput) : GameRuntime :=
  let keys := controlInput.keys
  if s.status ≠ GameStatus.active then updatePrevKeys s keys
  else
    let dt := min dtRaw 0.05
    let s :=
      { s with
        elapsed := s.elapsed + dt
        missionSeconds := s.missionSeconds - dt * s.countdownRate
        drillActive := false }
    let s := updateFreighterTransit s
    let s := applyFreighterDockActions fm s keys
    let s :=
      if s.docked then updateDockedSystems s dt
      else
        let s := updatePlayerControlWithInput fm s dt controlInput
        let s := updateGrabber fm s keys
        let s := moveGrabbedAsteroid fm s dt
        let s := launchCargoShot fm s keys
        launchWeaponShot fm s keys
    let s := { s with asteroids := s.asteroids.map (fun a => updateAsteroidBody fm a dt) }
    let s := resolveAsteroidCollisions fm s
    let s := resolveAsteroidPirateImpacts fm s dt
    let s :=
      if !s.docked then
        let s := resolvePlayerAsteroidImpacts fm s dt
        let s := resolvePlayerPirateImpact fm s dt
        updateDrill s dt keys
      else s
    let s := updateCargoShots fm s dt
    let s := updatePirate fm s dt
    let s := evaluateMissionOutcome s
    updatePrevKeys s keys

/-- Repeated stepRuntime over a recorded (dt, input) sequence. -/
def runSeq (fm : FloatModel) (s : GameRuntime) (inputs : List (ℚ × ControlInput)) : GameRuntime :=
  inputs.foldl (fun st p => stepRuntime fm st p.1 p.2) s

/-! Generic fold lemmas used to push observations through the loops. -/

theorem foldl_obs {α β γ : Type _} (f : α → β → α) (obs : α → γ)
    (h : ∀ a b, obs (f a b) = obs a) :
    ∀ (l : List β) (a : α), obs (l.foldl f a) = obs a
  | [], _ => rfl
  | b :: l, a => by
    rw [List.foldl_cons, foldl_obs f obs h l (f a b), h]

theorem foldl_inv {α β : Type _} (f : α → β → α) (P : α → Prop)
    (h : ∀ a b, P a → P (f a b)) :
    ∀ (l : List β) (a : α), P a → P (l.foldl f a)
  | [], _, ha => ha
  | b :: l, a, ha => by
    rw [List.foldl_cons]
    exact foldl_inv f P h l (f a b) (h a b ha)

/-! Bounds for the rng stream. -/

theorem rngNext_nonneg (st : ℤ) : 0 ≤ (rngNext st).2 := by
  show (0 : ℚ) ≤ (((1664525 * st + 1013904223) % 4294967296 : ℤ) : ℚ) / 4294967296
  have h : (0 : ℤ) ≤ (1664525 * st + 1013904223) % 4294967296 :=
    Int.emod_nonneg _ (by norm_num)
  positivity

theorem rngNext_lt_one (st : ℤ) : (rngNext st).2 < 1 := by
  show ((((1664525 * st + 1013904223) % 4294967296 : ℤ) : ℚ) / 4294967296) < 1
  rw [div_lt_one (by norm_num)]
  have h : (1664525 * st + 1013904223) % 4294967296 < 4294967296 :=
    Int.emod_lt_of_pos _ (by norm_num)
  exact_mod_cast h

theorem rngDraw_nonneg (s : GameRuntime) : 0 ≤ (rngDraw s).2 := rngNext_nonneg _

theorem randomRangeS_nonneg (s : GameRuntime) (lo hi : ℚ) (h0 : 0 ≤ lo) (h1 : lo ≤ hi) :
    0 ≤ (randomRangeS s lo hi).2 := by
  have hu := rngDraw_nonneg s
  have h2 : 0 ≤ (hi - lo) * (rngDraw s).2 := mul_nonneg (by linarith) hu
  show 0 ≤ lo + (hi - lo) * (rngDraw s).2
  linarith

/-! Frame lemmas for the small state transformers: each lemma states
that one tracked field is unchanged.  They are proved by definitional
projection chains and are used by simp in the composite proofs. -/

@[simp] theorem addEvent_cargoBins (s : GameRuntime) (m : String) (t : Tone) :
    (addEvent s m t).cargoBins = s.cargoBins := rfl

@[simp] theorem addEvent_cargoUsed (s : GameRuntime) (m : String) (t : Tone) :
    (addEvent s m t).cargoUsed = s.cargoUsed := rfl

@[simp] theorem addEvent_cargoCapacity (s : GameRuntime) (m : String) (t : Tone) :
    (addEvent s m t).cargoCapacity = s.cargoCapacity := rfl

@[simp] theorem addEvent_cargoValue (s : GameRuntime) (m : String) (t : Tone) :
    (addEvent s m t).cargoValue = s.cargoValue := rfl

@[simp] theorem addEvent_hull (s : GameRuntime) (m : String) (t : Tone) :
    (addEvent s m t).hull = s.hull := rfl

@[simp] theorem addEvent_maxHull (s : GameRuntime) (m : String) (t : Tone) :
    (addEvent s m t).maxHull = s.maxHull := rfl

@[simp] theorem addEvent_rammerSelf (s : GameRuntime) (m : String) (t : Tone) :
    (addEvent s m t).rammerSelfDamageMultiplier = s.rammerSelfDamageMultiplier := rfl

@[simp] theorem addEvent_weaponAmmo (s : GameRuntime) (m : String) (t : Tone) :
    (addEvent s m t).weaponAmmo = s.weaponAmmo := rfl

@[simp] theorem addEvent_weaponMaxAmmo (s : GameRuntime) (m : String) (t : Tone) :
    (addEvent s m t).weaponMaxAmmo = s.weaponMaxAmmo := rfl

@[simp] theorem addEvent_pirateState (s : GameRuntime) (m : String) (t : Tone) :
    (addEvent s m t).pirateState = s.pirateState := rfl

@[simp] theorem addEvent_status (s : GameRuntime) (m : String) (t : Tone) :
    (addEvent s m t).status = s.status := rfl

@[simp] theorem addEvent_docked (s : GameRuntime) (m : String) (t : Tone) :
    (addEvent s m t).docked = s.docked := rfl

@[simp] theorem addEvent_cargoFullWarned (s : GameRuntime) (m : String) (t : Tone) :
    (addEvent s m t).cargoFullWarned = s.cargoFullWarned := rfl

@[simp] theorem addEvent_drillActive (s : GameRuntime) (m : String) (t : Tone) :
    (addEvent s m t).drillActive = s.drillActive := rfl

@[simp] theorem addEvent_powerballCargo (s : GameRuntime) (m : String) (t : Tone) :
    (addEvent s m t).powerballCargo = s.powerballCargo := rfl

@[simp] theorem rngDraw_fst_cargoBins (s : GameRuntime) :
    (rngDraw s).1.cargoBins = s.cargoBins := rfl

@[simp] theorem rngDraw_fst_cargoUsed (s : GameRuntime) :
    (rngDraw s).1.cargoUsed = s.cargoUsed := rfl

@[simp] theorem rngDraw_fst_cargoCapacity (s : GameRuntime) :
    (rngDraw s).1.cargoCapacity = s.cargoCapacity := rfl

@[simp] theorem rngDraw_fst_hull (s : GameRuntime) : (rngDraw s).1.hull = s.hull := rfl

@[simp] theorem rngDraw_fst_maxHull (s : GameRuntime) : (rngDraw s).1.maxHull = s.maxHull := rfl

@[simp] theorem rngDraw_fst_rammerSelf (s : GameRuntime) :
    (rngDraw s).1.rammerSelfDamageMultiplier = s.rammerSelfDamageMultiplier := rfl

@[simp] theorem rngDraw_fst_weaponAmmo (s : GameRuntime) :
    (rngDraw s).1.weaponAmmo = s.weaponAmmo := rfl

@[simp] theorem rngDraw_fst_weaponMaxAmmo (s : GameRuntime) :
    (rngDraw s).1.weaponMaxAmmo = s.weaponMaxAmmo := rfl

@[simp] theorem rngDraw_fst_pirateState (s : GameRuntime) :
    (rngDraw s).1.pirateState = s.pirateState := rfl

@[simp] theorem rngDraw_fst_status (s : GameRuntime) : (rngDraw s).1.status = s.status := rfl

@[simp] theorem rngDraw_fst_docked (s : GameRuntime) : (rngDraw s).1.docked = s.docked := rfl

@[simp] theorem rngDraw_fst_pirateHull (s : GameRuntime) :
    (rngDraw s).1.pirateHull = s.pirateHull := rfl

@[simp] theorem rngDraw_fst_pirateBoardTimer (s : GameRuntime) :
    (rngDraw s).1.pirateBoardTimer = s.pirateBoardTimer := rfl

@[simp] theorem randomRangeS_fst (s : GameRuntime) (lo hi : ℚ) :
    (randomRangeS s lo hi).1 = (rngDraw s).1 := rfl

@[simp] theorem sampleAsteroidResource_fst (s : GameRuntime) (a : AsteroidSim) :
    (sampleAsteroidResource s a).1 = (rngDraw s).1 := rfl

@[simp] theorem triggerPirateEvent_cargoBins (s : GameRuntime) :
    (triggerPirateEvent s).cargoBins = s.cargoBins := rfl

@[simp] theorem triggerPirateEvent_cargoUsed (s : GameRuntime) :
    (triggerPirateEvent s).cargoUsed = s.cargoUsed := rfl

@[simp] theorem triggerPirateEvent_cargoCapacity (s : GameRuntime) :
    (triggerPirateEvent s).cargoCapacity = s.cargoCapacity := rfl

@[simp] theorem triggerPirateEvent_hull (s : GameRuntime) :
    (triggerPirateEvent s).hull = s.hull := rfl

@[simp] theorem triggerPirateEvent_maxHull (s : GameRuntime) :
    (triggerPirateEvent s).maxHull = s.maxHull := rfl

@[simp] theorem triggerPirateEvent_rammerSelf (s : GameRuntime) :
    (triggerPirateEvent s).rammerSelfDamageMultiplier = s.rammerSelfDamageMultiplier := rfl

@[simp] theorem triggerPirateEvent_weaponAmmo (s : GameRuntime) :
    (triggerPirateEvent s).weaponAmmo = s.weaponAmmo := rfl

@[simp] theorem triggerPirateEvent_weaponMaxAmmo (s : GameRuntime) :
    (triggerPirateEvent s).weaponMaxAmmo = s.weaponMaxAmmo := rfl

@[simp] theorem triggerPirateEvent_status (s : GameRuntime) :
    (triggerPirateEvent s).status = s.status := rfl

@[simp] theorem triggerPirateEvent_docked (s : GameRuntime) :
    (triggerPirateEvent s).docked = s.docked := rfl

@[simp] theorem applyPirateDamage_fst_cargoBins (s : GameRuntime) (d : ℚ) :
    ((applyPirateDamage s d).1).cargoBins = s.cargoBins := by
  unfold applyPirateDamage
  dsimp only
  repeat' split
  all_goals rfl

@[simp] theorem applyPirateDamage_fst_cargoUsed (s : GameRuntime) (d : ℚ) :
    ((applyPirateDamage s d).1).cargoUsed = s.cargoUsed := by
  unfold applyPirateDamage
  dsimp only
  repeat' split
  all_goals rfl

@[simp] theorem applyPirateDamage_fst_cargoCapacity (s : GameRuntime) (d : ℚ) :
    ((applyPirateDamage s d).1).cargoCapacity = s.cargoCapacity := by
  unfold applyPirateDamage
  dsimp only
  repeat' split
  all_goals rfl

@[simp] theorem applyPirateDamage_fst_hull (s : GameRuntime) (d : ℚ) :
    ((applyPirateDamage s d).1).hull = s.hull := by
  unfold applyPirateDamage
  dsimp only
  repeat' split
  all_goals rfl

@[simp] theorem applyPirateDamage_fst_maxHull (s : GameRuntime) (d : ℚ) :
    ((applyPirateDamage s d).1).maxHull = s.maxHull := by
  unfold applyPirateDamage
  dsimp only
  repeat' split
  all_goals rfl

@[simp] theorem applyPirateDamage_fst_rammerSelf (s : GameRuntime) (d : ℚ) :
    ((applyPirateDamage s d).1).rammerSelfDamageMultiplier = s.rammerSelfDamageMultiplier := by
  unfold applyPirateDamage
  dsimp only
  repeat' split
  all_goals rfl

@[simp] theorem applyPirateDamage_fst_weaponAmmo (s : GameRuntime) (d : ℚ) :
    ((applyPirateDamage s d).1).weaponAmmo = s.weaponAmmo := by
  unfold applyPirateDamage
  dsimp only
  repeat' split
  all_goals rfl

@[simp] theorem applyPirateDamage_fst_weaponMaxAmmo (s : GameRuntime) (d : ℚ) :
    ((applyPirateDamage s d).1).weaponMaxAmmo = s.weaponMaxAmmo := by
  unfold applyPirateDamage
  dsimp only
  repeat' split
  all_goals rfl

@[simp] theorem applyPirateDamage_fst_status (s : GameRuntime) (d : ℚ) :
    ((applyPirateDamage s d).1).status = s.status := by
  unfold applyPirateDamage
  dsimp only
  repeat' split
  all_goals rfl

@[simp] theorem applyPirateDamage_fst_docked (s : GameRuntime) (d : ℚ) :
    ((applyPirateDamage s d).1).docked = s.docked := by
  unfold applyPirateDamage
  dsimp only
  repeat' split
  all_goals rfl

@[simp] theorem takeCargoUnitForLaunch_fst_hull (s : GameRuntime) :
    ((takeCargoUnitForLaunch s).1).hull = s.hull := by
  unfold takeCargoUnitForLaunch
  dsimp only
  repeat' split
  all_goals rfl

@[simp] theorem takeCargoUnitForLaunch_fst_maxHull (s : GameRuntime) :
    ((takeCargoUnitForLaunch s).1).maxHull = s.maxHull := by
  unfold takeCargoUnitForLaunch
  dsimp only
  repeat' split
  all_goals rfl

@[simp] theorem takeCargoUnitForLaunch_fst_rammerSelf (s : GameRuntime) :
    ((takeCargoUnitForLaunch s).1).rammerSelfDamageMultiplier = s.rammerSelfDamageMultiplier := by
  unfold takeCargoUnitForLaunch
  dsimp only
  repeat' split
  all_goals rfl

@[simp] theorem takeCargoUnitForLaunch_fst_weaponAmmo (s : GameRuntime) :
    ((takeCargoUnitForLaunch s).1).weaponAmmo = s.weaponAmmo := by
  unfold takeCargoUnitForLaunch
  dsimp only
  repeat' split
  all_goals rfl

@[simp] theorem takeCargoUnitForLaunch_fst_weaponMaxAmmo (s : GameRuntime) :
    ((takeCargoUnitForLaunch s).1).weaponMaxAmmo = s.weaponMaxAmmo := by
  unfold takeCargoUnitForLaunch
  dsimp only
  repeat' split
  all_goals rfl

@[simp] theorem takeCargoUnitForLaunch_fst_pirateState (s : GameRuntime) :
    ((takeCargoUnitForLaunch s).1).pirateState = s.pirateState := by
  unfold takeCargoUnitForLaunch
  dsimp only
  repeat' split
  all_goals rfl

@[simp] theorem takeCargoUnitForLaunch_fst_status (s : GameRuntime) :
    ((takeCargoUnitForLaunch s).1).status = s.status := by
  unfold takeCargoUnitForLaunch
  dsimp only
  repeat' split
  all_goals rfl

@[simp] theorem takeCargoUnitForLaunch_fst_cargoCapacity (s : GameRuntime) :
    ((takeCargoUnitForLaunch s).1).cargoCapacity = s.cargoCapacity := by
  unfold takeCargoUnitForLaunch
  dsimp only
  repeat' split
  all_goals rfl

@[simp] theorem takeCargoUnitForUnload_fst_hull (s : GameRuntime) :
    ((takeCargoUnitForUnload s).1).hull = s.hull := by
  unfold takeCargoUnitForUnload
  dsimp only
  repeat' split
  all_goals rfl

@[simp] theorem takeCargoUnitForUnload_fst_maxHull (s : GameRuntime) :
    ((takeCargoUnitForUnload s).1).maxHull = s.maxHull := by
  unfold takeCargoUnitForUnload
  dsimp only
  repeat' split
  all_goals rfl

@[simp] theorem takeCargoUnitForUnload_fst_rammerSelf (s : GameRuntime) :
    ((takeCargoUnitForUnload s).1).rammerSelfDamageMultiplier = s.rammerSelfDamageMultiplier := by
  unfold takeCargoUnitForUnload
  dsimp only
  repeat' split
  all_goals rfl

@[simp] theorem takeCargoUnitForUnload_fst_weaponAmmo (s : GameRuntime) :
    ((takeCargoUnitForUnload s).1).weaponAmmo = s.weaponAmmo := by
  unfold takeCargoUnitForUnload
  dsimp only
  repeat' split
  all_goals rfl

@[simp] theorem takeCargoUnitForUnload_fst_weaponMaxAmmo (s : GameRuntime) :
    ((takeCargoUnitForUnload s).1).weaponMaxAmmo = s.weaponMaxAmmo := by
  unfold takeCargoUnitForUnload
  dsimp only
  repeat' split
  all_goals rfl

@[simp] theorem takeCargoUnitForUnload_fst_pirateState (s : GameRuntime) :
    ((takeCargoUnitForUnload s).1).pirateState = s.pirateState := by
  unfold takeCargoUnitForUnload
  dsimp only
  repeat' split
  all_goals rfl

@[simp] theorem takeCargoUnitForUnload_fst_status (s : GameRuntime) :
    ((takeCargoUnitForUnload s).1).status = s.status := by
  unfold takeCargoUnitForUnload
  dsimp only
  repeat' split
  all_goals rfl

@[simp] theorem takeCargoUnitForUnload_fst_cargoCapacity (s : GameRuntime) :
    ((takeCargoUnitForUnload s).1).cargoCapacity = s.cargoCapacity := by
  unfold takeCargoUnitForUnload
  dsimp only
  repeat' split
  all_goals rfl

@[simp] theorem addCargo_fst_hull (s : GameRuntime) (r : ResourceId) (u : ℚ) :
    ((addCargo s r u).1).hull = s.hull := by
  unfold addCargo
  dsimp only
  repeat' split
  all_goals rfl

@[simp] theorem addCargo_fst_maxHull (s : GameRuntime) (r : ResourceId) (u : ℚ) :
    ((addCargo s r u).1).maxHull = s.maxHull := by
  unfold addCargo
  dsimp only
  repeat' split
  all_goals rfl

@[simp] theorem addCargo_fst_rammerSelf (s : GameRuntime) (r : ResourceId) (u : ℚ) :
    ((addCargo s r u).1).rammerSelfDamageMultiplier = s.rammerSelfDamageMultiplier := by
  unfold addCargo
  dsimp only
  repeat' split
  all_goals rfl

@[simp] theorem addCargo_fst_weaponAmmo (s : GameRuntime) (r : ResourceId) (u : ℚ) :
    ((addCargo s r u).1).weaponAmmo = s.weaponAmmo := by
  unfold addCargo
  dsimp only
  repeat' split
  all_goals rfl

@[simp] theorem addCargo_fst_weaponMaxAmmo (s : GameRuntime) (r : ResourceId) (u : ℚ) :
    ((addCargo s r u).1).weaponMaxAmmo = s.weaponMaxAmmo := by
  unfold addCargo
  dsimp only
  repeat' split
  all_goals rfl

@[simp] theorem addCargo_fst_pirateState (s : GameRuntime) (r : ResourceId) (u : ℚ) :
    ((addCargo s r u).1).pirateState = s.pirateState := by
  unfold addCargo
  dsimp only
  repeat' split
  all_goals rfl

@[simp] theorem addCargo_fst_status (s : GameRuntime) (r : ResourceId) (u : ℚ) :
    ((addCargo s r u).1).status = s.status := by
  unfold addCargo
  dsimp only
  repeat' split
  all_goals rfl

@[simp] theorem addCargo_fst_cargoCapacity (s : GameRuntime) (r : ResourceId) (u : ℚ) :
    ((addCargo s r u).1).cargoCapacity = s.cargoCapacity := by
  unfold addCargo
  dsimp only
  repeat' split
  all_goals rfl

/-- Equality of the three cargo-accounting fields the cargo invariant
speaks about. -/
def cargo3 (t s : GameRuntime) : Prop :=
  t.cargoBins = s.cargoBins ∧ t.cargoUsed = s.cargoUsed ∧ t.cargoCapacity = s.cargoCapacity

theorem cargo3_trans {t u s : GameRuntime} (h1 : cargo3 t u) (h2 : cargo3 u s) : cargo3 t s :=
  ⟨h1.1.trans h2.1, h1.2.1.trans h2.2.1, h1.2.2.trans h2.2.2⟩

theorem cargo3_updateFreighterTransit (s : GameRuntime) :
    cargo3 (updateFreighterTransit s) s := ⟨rfl, rfl, rfl⟩

theorem cargo3_updatePrevKeys (s : GameRuntime) (k : Keys) :
    cargo3 (updatePrevKeys s k) s := ⟨rfl, rfl, rfl⟩

theorem cargo3_applyFreighterDockActions (fm : FloatModel) (s : GameRuntime) (k : Keys) :
    cargo3 (applyFreighterDockActions fm s k) s := by
  unfold applyFreighterDockActions
  dsimp only
  repeat' split
  all_goals exact ⟨rfl, rfl, rfl⟩

theorem cargo3_updatePlayerControlWithInput (fm : FloatModel) (s : GameRuntime) (dt : ℚ)
    (input : ControlInput) : cargo3 (updatePlayerControlWithInput fm s dt input) s :=
  ⟨rfl, rfl, rfl⟩

theorem cargo3_updateGrabber (fm : FloatModel) (s : GameRuntime) (k : Keys) :
    cargo3 (updateGrabber fm s k) s := by
  unfold updateGrabber
  dsimp only
  repeat' split
  all_goals exact ⟨rfl, rfl, rfl⟩

theorem cargo3_moveGrabbedAsteroid (fm : FloatModel) (s : GameRuntime) (dt : ℚ) :
    cargo3 (moveGrabbedAsteroid fm s dt) s := by
  unfold moveGrabbedAsteroid
  dsimp only
  repeat' split
  all_goals exact ⟨rfl, rfl, rfl⟩

theorem cargo3_launchWeaponShot (fm : FloatModel) (s : GameRuntime) (k : Keys) :
    cargo3 (launchWeaponShot fm s k) s := by
  unfold launchWeaponShot
  dsimp only
  repeat' split
  all_goals exact ⟨rfl, rfl, rfl⟩

theorem cargo3_resolveAsteroidCollisions (fm : FloatModel) (s : GameRuntime) :
    cargo3 (resolveAsteroidCollisions fm s) s := ⟨rfl, rfl, rfl⟩

theorem cargo3_pirateImpactLoop (fm : FloatModel) :
    ∀ (l : List ℕ) (s : GameRuntime), cargo3 (pirateImpactLoop fm s l) s := by
  intro l
  induction l with
  | nil => intro s; exact ⟨rfl, rfl, rfl⟩
  | cons i rest ih =>
    intro s
    unfold pirateImpactLoop
    dsimp only
    repeat' split
    all_goals
      first
      | exact ih s
      | (refine cargo3_trans (ih _) ⟨?_, ?_, ?_⟩ <;> (simp; done))
      | (refine ⟨?_, ?_, ?_⟩ <;> (simp; done))

theorem cargo3_resolveAsteroidPirateImpacts (fm : FloatModel) (s : GameRuntime) (dt : ℚ) :
    cargo3 (resolveAsteroidPirateImpacts fm s dt) s := by
  unfold resolveAsteroidPirateImpacts
  dsimp only
  split
  · exact ⟨rfl, rfl, rfl⟩
  · exact cargo3_trans (cargo3_pirateImpactLoop fm _ _) ⟨rfl, rfl, rfl⟩

theorem cargo3_playerImpactBody (fm : FloatModel) (s : GameRuntime) (a : AsteroidSim) :
    cargo3 (playerImpactBody fm s a) s := by
  unfold playerImpactBody
  dsimp only
  repeat' split
  all_goals exact ⟨by simp, by simp, by simp⟩

theorem cargo3_resolvePlayerAsteroidImpacts (fm : FloatModel) (s : GameRuntime) (dt : ℚ) :
    cargo3 (resolvePlayerAsteroidImpacts fm s dt) s := by
  unfold resolvePlayerAsteroidImpacts
  dsimp only
  refine foldl_inv _ (fun t => cargo3 t s)
    (fun a b hb => cargo3_trans (cargo3_playerImpactBody fm a b) hb) _ _ ⟨rfl, rfl, rfl⟩

theorem cargo3_resolvePlayerPirateImpact (fm : FloatModel) (s : GameRuntime) (dt : ℚ) :
    cargo3 (resolvePlayerPirateImpact fm s dt) s := by
  unfold resolvePlayerPirateImpact
  dsimp only
  repeat' split
  all_goals exact ⟨by simp, by simp, by simp⟩

theorem cargo3_shotHitPirate (fm : FloatModel) (s : GameRuntime) (shot : CargoShot) :
    cargo3 (shotHitPirate fm s shot).1 s := by
  unfold shotHitPirate
  dsimp only
  repeat' split
  all_goals exact ⟨by simp, by simp, by simp⟩

theorem cargo3_cargoShotBody (fm : FloatModel) (dt : ℚ) (acc : GameRuntime × List CargoShot)
    (x : CargoShot) : cargo3 (cargoShotBody fm dt acc x).1 acc.1 := by
  unfold cargoShotBody
  dsimp only
  repeat' split
  all_goals first
    | exact ⟨rfl, rfl, rfl⟩
    | exact cargo3_shotHitPirate fm acc.1 _

theorem cargo3_updateCargoShots (fm : FloatModel) (s : GameRuntime) (dt : ℚ) :
    cargo3 (updateCargoShots fm s dt) s := by
  unfold updateCargoShots
  dsimp only
  refine cargo3_trans (t := _) (u := (s.cargoShots.foldl (cargoShotBody fm dt) (s, [])).1)
    ⟨rfl, rfl, rfl⟩ ?_
  exact foldl_inv _ (fun acc : GameRuntime × List CargoShot => cargo3 acc.1 s)
    (fun a b hb => cargo3_trans (cargo3_cargoShotBody fm dt a b) hb) _ _ ⟨rfl, rfl, rfl⟩

theorem cargo3_updatePirate (fm : FloatModel) (s : GameRuntime) (dt : ℚ) :
    cargo3 (updatePirate fm s dt) s := by
  unfold updatePirate
  dsimp only
  repeat' split
  all_goals exact ⟨by simp, by simp, by simp⟩

theorem cargo3_evaluateMissionOutcome (s : GameRuntime) :
    cargo3 (evaluateMissionOutcome s) s := by
  unfold evaluateMissionOutcome
  dsimp only
  repeat' split
  all_goals exact ⟨by simp, by simp, by simp⟩

/-- Sum over the bins of units times the static unit volume of the
slot resource: the quantity the cargo-conservation claim equates with
cargoUsed. -/
def binVolumeSum (b : CargoBins) : ℚ :=
  b.scrapIron.units * (RESOURCES .scrapIron).volume +
    b.waterIce.units * (RESOURCES .waterIce).volume +
    b.cobaltDust.units * (RESOURCES .cobaltDust).volume +
    b.xenoCrystal.units * (RESOURCES .xenoCrystal).volume +
    b.fringeRelic.units * (RESOURCES .fringeRelic).volume

/-- Well-formedness of one bin slot: its recorded resource id is the
slot key, its unit count is a natural number, and its aggregate value is
units times the static unit value.  All three hold at creation and are
preserved by every cargo operation. -/
def BinGood (r : ResourceId) (b : CargoBin) : Prop :=
  b.resourceId = r ∧ (∃ n : ℕ, b.units = (n : ℚ)) ∧ b.value = b.units * (RESOURCES r).value

def BinsGood (bins : CargoBins) : Prop := ∀ r, BinGood r (getBin bins r)

/-- The inductive cargo invariant: well-formed bins, cargoUsed equal to
the volume-weighted unit sum, and cargoUsed within capacity. -/
def CargoInv (s : GameRuntime) : Prop :=
  BinsGood s.cargoBins ∧ s.cargoUsed = binVolumeSum s.cargoBins ∧
    s.cargoUsed ≤ s.cargoCapacity

theorem CargoInv_of_cargo3 {t s : GameRuntime} (h3 : cargo3 t s) (h : CargoInv s) :
    CargoInv t := by
  obtain ⟨hb, hu, hc⟩ := h3
  refine ⟨?_, ?_, ?_⟩
  · rw [hb]; exact h.1
  · rw [hu, hb]; exact h.2.1
  · rw [hu, hc]; exact h.2.2

theorem getBin_setBin_same (b : CargoBins) (r : ResourceId) (v : CargoBin) :
    getBin (setBin b r v) r = v := by cases r <;> rfl

theorem getBin_setBin_ne (b : CargoBins) (r rp : ResourceId) (v : CargoBin) (h : rp ≠ r) :
    getBin (setBin b r v) rp = getBin b rp := by
  cases r <;> cases rp <;> first | rfl | exact absurd rfl h

theorem binVolumeSum_setBin (b : CargoBins) (r : ResourceId) (v : CargoBin) :
    binVolumeSum (setBin b r v) =
      binVolumeSum b + (v.units - (getBin b r).units) * (RESOURCES r).volume := by
  cases r <;> (simp [binVolumeSum, setBin, getBin, RESOURCES]; ring)

theorem volume_pos (r : ResourceId) : 0 < (RESOURCES r).volume := by
  cases r <;> norm_num [RESOURCES]

theorem value_pos (r : ResourceId) : 0 < (RESOURCES r).value := by
  cases r <;> norm_num [RESOURCES]

theorem unit_nonneg_of_binsGood {b : CargoBins} (h : BinsGood b) (r : ResourceId) :
    0 ≤ (getBin b r).units := by
  obtain ⟨-, ⟨n, hn⟩, -⟩ := h r
  rw [hn]
  exact Nat.cast_nonneg n

theorem term_le_binVolumeSum {b : CargoBins} (h : BinsGood b) (r : ResourceId) :
    (getBin b r).units * (RESOURCES r).volume ≤ binVolumeSum b := by
  have h1 := unit_nonneg_of_binsGood h ResourceId.scrapIron
  have h2 := unit_nonneg_of_binsGood h ResourceId.waterIce
  have h3 := unit_nonneg_of_binsGood h ResourceId.cobaltDust
  have h4 := unit_nonneg_of_binsGood h ResourceId.xenoCrystal
  have h5 := unit_nonneg_of_binsGood h ResourceId.fringeRelic
  simp only [getBin] at h1 h2 h3 h4 h5
  cases r <;> simp [binVolumeSum, getBin, RESOURCES] <;> linarith

theorem pickMaxBy_mem (key : CargoBin → ℚ) :
    ∀ (l : List (ResourceId × CargoBin)) (p : ResourceId × CargoBin),
      pickMaxBy key l = some p → p ∈ l := by
  intro l
  induction l with
  | nil => intro p h; simp [pickMaxBy] at h
  | cons q rest ih =>
    intro p h
    unfold pickMaxBy at h
    split at h
    · rw [Option.some_inj] at h
      exact h ▸ List.mem_cons_self q rest
    · split at h <;> rw [Option.some_inj] at h
      · rename_i w hw _
        exact List.mem_cons_of_mem q (h ▸ ih w hw)
      · exact h ▸ List.mem_cons_self q rest

theorem pickMaxBy_maximal (key : CargoBin → ℚ) :
    ∀ (l : List (ResourceId × CargoBin)) (p : ResourceId × CargoBin),
      pickMaxBy key l = some p → ∀ q ∈ l, key q.2 ≤ key p.2 := by
  intro l
  induction l with
  | nil => intro p h; simp [pickMaxBy] at h
  | cons a rest ih =>
    intro p h q hq
    unfold pickMaxBy at h
    split at h
    · rename_i hnone
      rw [Option.some_inj] at h
      subst h
      rcases List.mem_cons.mp hq with hq | hq
      · rw [hq]
      · cases rest with
        | nil => simp at hq
        | cons b bs =>
          cases hbs : pickMaxBy key bs with
          | none => rw [pickMaxBy, hbs] at hnone; simp at hnone
          | some w =>
            rw [pickMaxBy, hbs] at hnone
            repeat' split at hnone
            all_goals simp at hnone
    · rename_i w hw
      split at h <;> rw [Option.some_inj] at h <;> subst h
      · rename_i hgt
        rcases List.mem_cons.mp hq with hq | hq
        · rw [hq]; exact le_of_lt hgt
        · exact ih w hw q hq
      · rename_i hle
        rcases List.mem_cons.mp hq with hq | hq
        · rw [hq]
        · exact le_trans (ih w hw q hq) (le_of_not_lt hle)

theorem binsPairs_mem {b : CargoBins} {p : ResourceId × CargoBin} (h : p ∈ binsPairs b) :
    p.2 = getBin b p.1 := by
  simp only [binsPairs, List.mem_cons, List.not_mem_nil, or_false] at h
  rcases h with h | h | h | h | h <;> subst h <;> rfl

theorem floorcast_nonneg {x : ℚ} (hx : 0 ≤ x) : (0 : ℚ) ≤ ((⌊x⌋ : ℤ) : ℚ) := by
  have := Int.floor_nonneg.mpr hx
  exact_mod_cast this

theorem min_nat_cast (n : ℕ) {x : ℚ} (hx : 0 ≤ x) (hxint : ∃ k : ℤ, x = (k : ℚ)) :
    ∃ m : ℕ, min (n : ℚ) x = (m : ℚ) := by
  obtain ⟨k, rfl⟩ := hxint
  have hk : 0 ≤ k := by exact_mod_cast hx
  refine ⟨min n k.toNat, ?_⟩
  have hcast : ((k.toNat : ℕ) : ℚ) = (k : ℚ) := by
    rw [← Int.cast_natCast, Int.toNat_of_nonneg hk]
  rw [Nat.cast_min, hcast]

theorem floorcast_mul_le {x vol : ℚ} (hvol : 0 < vol) :
    ((⌊x / vol⌋ : ℤ) : ℚ) * vol ≤ x := by
  have h1 : ((⌊x / vol⌋ : ℤ) : ℚ) ≤ x / vol := Int.floor_le _
  calc ((⌊x / vol⌋ : ℤ) : ℚ) * vol ≤ (x / vol) * vol :=
        mul_le_mul_of_nonneg_right h1 hvol.le
    _ = x := div_mul_cancel₀ x hvol.ne.symm

theorem cargoInv_addCargo (s : GameRuntime) (r : ResourceId) (u : ℚ)
    (hu : ∃ n : ℕ, u = (n : ℚ)) (h : CargoInv s) : CargoInv (addCargo s r u).1 := by
  obtain ⟨hb, hsum, hcap⟩ := h
  obtain ⟨n, rfl⟩ := hu
  unfold addCargo
  dsimp only
  split
  · split
    · exact CargoInv_of_cargo3 ⟨rfl, rfl, rfl⟩ ⟨hb, hsum, hcap⟩
    · exact ⟨hb, hsum, hcap⟩
  · rename_i hpos
    have hvol := volume_pos r
    have hrem0 : (0:ℚ) ≤ max 0 (s.cargoCapacity - s.cargoUsed) := le_max_left _ _
    have hF0 : (0:ℚ) ≤ ((⌊(max 0 (s.cargoCapacity - s.cargoUsed)) / (RESOURCES r).volume⌋ : ℤ) : ℚ) :=
      floorcast_nonneg (div_nonneg hrem0 hvol.le)
    obtain ⟨m, hm⟩ := min_nat_cast n hF0 ⟨_, rfl⟩
    have hAF : min (n:ℚ) ((⌊(max 0 (s.cargoCapacity - s.cargoUsed)) / (RESOURCES r).volume⌋ : ℤ) : ℚ) ≤ _ := min_le_right _ _
    have hAv : min (n:ℚ) ((⌊(max 0 (s.cargoCapacity - s.cargoUsed)) / (RESOURCES r).volume⌋ : ℤ) : ℚ) * (RESOURCES r).volume ≤ s.cargoCapacity - s.cargoUsed := by
      have h2 := floorcast_mul_le (x := max 0 (s.cargoCapacity - s.cargoUsed)) hvol
      have h3 : max 0 (s.cargoCapacity - s.cargoUsed) = s.cargoCapacity - s.cargoUsed :=
        max_eq_right (by linarith)
      have h4 := mul_le_mul_of_nonneg_right hAF hvol.le
      linarith
    refine ⟨?_, ?_, ?_⟩
    · intro rp
      by_cases hrp : rp = r
      · subst hrp
        rw [getBin_setBin_same]
        obtain ⟨hid, ⟨n0, hn0⟩, hval⟩ := hb rp
        refine ⟨hid, ⟨n0 + m, ?_⟩, ?_⟩
        · dsimp only
          rw [hn0, hm]
          push_cast
          ring
        · dsimp only
          rw [hval]
          ring
      · rw [getBin_setBin_ne _ _ _ _ hrp]
        exact hb rp
    · dsimp only
      rw [binVolumeSum_setBin, ← hsum]
      dsimp only
      ring
    · dsimp only
      linarith

theorem cargoInv_decrement (s : GameRuntime) (slot : ResourceId) (bin : CargoBin)
    (hbin : bin = getBin s.cargoBins slot) (hpos : 0 < bin.units) (h : CargoInv s) :
    CargoInv
      { s with
        cargoBins := setBin s.cargoBins slot
          { bin with
            units := bin.units - 1
            volume := max 0 (bin.volume - (RESOURCES bin.resourceId).volume)
            value := max 0 (bin.value - (RESOURCES bin.resourceId).value) }
        cargoUsed := max 0 (s.cargoUsed - (RESOURCES bin.resourceId).volume)
        cargoValue := max 0 (s.cargoValue - (RESOURCES bin.resourceId).value)
        cargoFullWarned := false } := by
  obtain ⟨hb, hsum, hcap⟩ := h
  obtain ⟨hid, ⟨n, hn⟩, hval⟩ := hb slot
  rw [← hbin] at hid hn hval
  have hn1 : 1 ≤ n := by
    have : 0 < n := by exact_mod_cast hn ▸ hpos
    omega
  have h1q : (1:ℚ) ≤ bin.units := by rw [hn]; exact_mod_cast hn1
  have hvol := volume_pos slot
  have hvalp := value_pos slot
  have hterm := term_le_binVolumeSum hb slot
  rw [← hbin] at hterm
  have husedvol : (RESOURCES slot).volume ≤ s.cargoUsed := by
    rw [hsum]
    nlinarith
  refine ⟨?_, ?_, ?_⟩
  · intro rp
    by_cases hrp : rp = slot
    · subst hrp
      rw [getBin_setBin_same]
      refine ⟨by dsimp only; rw [hid], ⟨n - 1, ?_⟩, ?_⟩
      · dsimp only
        rw [hn]
        rw [Nat.cast_sub hn1]
        norm_num
      · dsimp only
        rw [hid, hval]
        rw [max_eq_right (by nlinarith)]
        ring
    · rw [getBin_setBin_ne _ _ _ _ hrp]
      exact hb rp
  · dsimp only
    rw [binVolumeSum_setBin, ← hbin, ← hsum, hid]
    dsimp only
    rw [max_eq_right (by linarith)]
    ring
  · dsimp only
    rw [hid, max_eq_right (by linarith)]
    linarith

theorem cargoInv_takeCargoUnitForLaunch (s : GameRuntime) (h : CargoInv s) :
    CargoInv (takeCargoUnitForLaunch s).1 := by
  unfold takeCargoUnitForLaunch
  dsimp only
  split
  · exact h
  · rename_i slot bin heq
    have hmem := pickMaxBy_mem _ _ _ heq
    rw [List.mem_filter] at hmem
    have hbin := binsPairs_mem hmem.1
    have hpos : 0 < bin.units := of_decide_eq_true hmem.2
    exact cargoInv_decrement s slot bin hbin hpos h

theorem cargoInv_takeCargoUnitForUnload (s : GameRuntime) (h : CargoInv s) :
    CargoInv (takeCargoUnitForUnload s).1 := by
  unfold takeCargoUnitForUnload
  dsimp only
  split
  · exact h
  · rename_i slot bin heq
    have hmem := pickMaxBy_mem _ _ _ heq
    rw [List.mem_filter] at hmem
    have hbin := binsPairs_mem hmem.1
    have hpos : 0 < bin.units := of_decide_eq_true hmem.2
    exact cargoInv_decrement s slot bin hbin hpos h

theorem one_add_floor_nat {u : ℚ} (hu : 0 ≤ u) :
    ∃ m : ℕ, (1 : ℚ) + ((⌊u * 2⌋ : ℤ) : ℚ) = (m : ℚ) := by
  have hf : (0:ℤ) ≤ ⌊u * 2⌋ := Int.floor_nonneg.mpr (mul_nonneg hu (by norm_num))
  refine ⟨1 + ⌊u * 2⌋.toNat, ?_⟩
  push_cast
  rw [← Int.cast_natCast, Int.toNat_of_nonneg hf]

theorem cargo3_drillUnits (s : GameRuntime) (r : ResourceId) :
    cargo3 (drillUnits s r).1 s := by
  unfold drillUnits
  dsimp only
  split
  · exact ⟨rfl, rfl, rfl⟩
  · exact ⟨rfl, rfl, rfl⟩

theorem drillUnits_nat (s : GameRuntime) (r : ResourceId) :
    ∃ n : ℕ, (drillUnits s r).2 = (n : ℚ) := by
  unfold drillUnits
  dsimp only
  split
  · exact ⟨1, by norm_num⟩
  · exact one_add_floor_nat (rngDraw_nonneg _)

theorem cargoInv_drillYield (s : GameRuntime) (ast : AsteroidSim) (h : CargoInv s) :
    CargoInv (drillYield s ast).1 := by
  unfold drillYield
  dsimp only
  repeat' split
  all_goals refine CargoInv_of_cargo3 ⟨?_, ?_, ?_⟩ h <;> (simp; done)

theorem cargoInv_drillTick (s : GameRuntime) (ast : AsteroidSim) (h : CargoInv s) :
    CargoInv (drillTick s ast).1 := by
  have h1 : CargoInv (sampleAsteroidResource
      { s with drillAccumulator := s.drillAccumulator - 1 } ast).1 :=
    CargoInv_of_cargo3 ⟨rfl, rfl, rfl⟩ h
  have h2 := CargoInv_of_cargo3
    (cargo3_drillUnits (sampleAsteroidResource
      { s with drillAccumulator := s.drillAccumulator - 1 } ast).1
      (sampleAsteroidResource { s with drillAccumulator := s.drillAccumulator - 1 } ast).2) h1
  have h3 := cargoInv_addCargo _
    (sampleAsteroidResource { s with drillAccumulator := s.drillAccumulator - 1 } ast).2 _
    (drillUnits_nat
      (sampleAsteroidResource { s with drillAccumulator := s.drillAccumulator - 1 } ast).1
      (sampleAsteroidResource { s with drillAccumulator := s.drillAccumulator - 1 } ast).2) h2
  unfold drillTick
  dsimp only
  split
  · exact CargoInv_of_cargo3 ⟨rfl, rfl, rfl⟩ h3
  · exact cargoInv_drillYield _ _ h3

theorem cargoInv_drillLoop :
    ∀ (fuel : ℕ) (s : GameRuntime) (ast : AsteroidSim),
      CargoInv s → CargoInv (drillLoop s ast fuel).1 := by
  intro fuel
  induction fuel with
  | zero => intro s ast h; exact h
  | succ fuel ih =>
    intro s ast h
    unfold drillLoop
    dsimp only
    repeat' split
    all_goals
      first
      | exact h
      | exact ih _ _ (cargoInv_drillTick s ast h)
      | exact CargoInv_of_cargo3 ⟨rfl, rfl, rfl⟩ (cargoInv_drillTick s ast h)

theorem cargoInv_unloadLoop :
    ∀ (fuel : ℕ) (s : GameRuntime), CargoInv s → CargoInv (unloadLoop s fuel) := by
  intro fuel
  induction fuel with
  | zero => intro s h; exact h
  | succ fuel ih =>
    intro s h
    unfold unloadLoop
    dsimp only
    repeat' split
    all_goals
      first
      | exact h
      | exact cargoInv_takeCargoUnitForUnload s h
      | exact ih _ (CargoInv_of_cargo3 ⟨rfl, rfl, rfl⟩ h)
      | exact ih _ (CargoInv_of_cargo3 ⟨rfl, rfl, rfl⟩ (cargoInv_takeCargoUnitForUnload s h))

theorem cargoInv_updateDockedSystems (s : GameRuntime) (dt : ℚ) (h : CargoInv s) :
    CargoInv (updateDockedSystems s dt) := by
  have h1 : CargoInv
      { s with
        playerPosition := s.freighterPosition.add s.dockedPosition
        playerVelocity := (⟨0, 0, 0⟩ : V3)
        throttleLevel := 0
        grabbedAsteroidId := none
        drillActive := false
        unloadAccumulator := s.unloadAccumulator + dt * DOCK_UNLOAD_UNITS_PER_SECOND } :=
    CargoInv_of_cargo3 ⟨rfl, rfl, rfl⟩ h
  have h2 := cargoInv_unloadLoop
    (⌊s.unloadAccumulator + dt * DOCK_UNLOAD_UNITS_PER_SECOND⌋.toNat) _ h1
  unfold updateDockedSystems
  dsimp only
  repeat' split
  all_goals
    first
    | exact h
    | exact h2
    | exact CargoInv_of_cargo3 ⟨rfl, rfl, rfl⟩ h2

theorem cargoInv_updateDrill (s : GameRuntime) (dt : ℚ) (k : Keys) (h : CargoInv s) :
    CargoInv (updateDrill s dt k) := by
  have h1 : CargoInv
      { s with
        drillActive := true
        drillAccumulator := s.drillAccumulator + dt * ORE_EXTRACT_RATE * s.drillMultiplier } :=
    CargoInv_of_cargo3 ⟨rfl, rfl, rfl⟩ h
  unfold updateDrill
  dsimp only
  repeat' split
  all_goals
    first
    | exact CargoInv_of_cargo3 ⟨rfl, rfl, rfl⟩ h
    | exact CargoInv_of_cargo3 ⟨rfl, rfl, rfl⟩
        (cargoInv_drillLoop
          (⌊s.drillAccumulator + dt * ORE_EXTRACT_RATE * s.drillMultiplier⌋.toNat) _ _ h1)

theorem cargoInv_launchCargoShot (fm : FloatModel) (s : GameRuntime) (k : Keys)
    (h : CargoInv s) : CargoInv (launchCargoShot fm s k) := by
  unfold launchCargoShot
  dsimp only
  repeat' split
  all_goals
    first
    | exact h
    | exact CargoInv_of_cargo3 ⟨rfl, rfl, rfl⟩ (cargoInv_takeCargoUnitForLaunch s h)

theorem cargoInv_stepRuntime (fm : FloatModel) (s : GameRuntime) (dt : ℚ)
    (i : ControlInput) (h : CargoInv s) : CargoInv (stepRuntime fm s dt i) := by
  have hbase : CargoInv (applyFreighterDockActions fm (updateFreighterTransit
      { s with
        elapsed := s.elapsed + min dt 0.05
        missionSeconds := s.missionSeconds - min dt 0.05 * s.countdownRate
        drillActive := false }) i.keys) :=
    CargoInv_of_cargo3 (cargo3_applyFreighterDockActions _ _ _)
      (CargoInv_of_cargo3 (cargo3_updateFreighterTransit _)
        (CargoInv_of_cargo3 ⟨rfl, rfl, rfl⟩ h))
  have hLaunch := CargoInv_of_cargo3 (cargo3_launchWeaponShot fm _ i.keys)
    (cargoInv_launchCargoShot fm _ i.keys
      (CargoInv_of_cargo3 (cargo3_moveGrabbedAsteroid fm _ (min dt 0.05))
        (CargoInv_of_cargo3 (cargo3_updateGrabber fm _ i.keys)
          (CargoInv_of_cargo3 (cargo3_updatePlayerControlWithInput fm _ (min dt 0.05) i)
            hbase))))
  unfold stepRuntime
  dsimp only
  split
  · exact CargoInv_of_cargo3 ⟨rfl, rfl, rfl⟩ h
  · refine CargoInv_of_cargo3 (cargo3_updatePrevKeys _ _) ?_
    refine CargoInv_of_cargo3 (cargo3_evaluateMissionOutcome _) ?_
    refine CargoInv_of_cargo3 (cargo3_updatePirate _ _ _) ?_
    refine CargoInv_of_cargo3 (cargo3_updateCargoShots _ _ _) ?_
    split
    all_goals split
    all_goals
      first
      | exact cargoInv_updateDrill _ (min dt 0.05) i.keys
          (CargoInv_of_cargo3 (cargo3_resolvePlayerPirateImpact _ _ _)
            (CargoInv_of_cargo3 (cargo3_resolvePlayerAsteroidImpacts _ _ _)
              (CargoInv_of_cargo3 (cargo3_resolveAsteroidPirateImpacts _ _ _)
                (CargoInv_of_cargo3 (cargo3_resolveAsteroidCollisions _ _)
                  (CargoInv_of_cargo3 ⟨rfl, rfl, rfl⟩
                    (cargoInv_updateDockedSystems _ (min dt 0.05) hbase))))))
      | exact cargoInv_updateDrill _ (min dt 0.05) i.keys
          (CargoInv_of_cargo3 (cargo3_resolvePlayerPirateImpact _ _ _)
            (CargoInv_of_cargo3 (cargo3_resolvePlayerAsteroidImpacts _ _ _)
              (CargoInv_of_cargo3 (cargo3_resolveAsteroidPirateImpacts _ _ _)
                (CargoInv_of_cargo3 (cargo3_resolveAsteroidCollisions _ _)
                  (CargoInv_of_cargo3 ⟨rfl, rfl, rfl⟩ hLaunch)))))
      | exact CargoInv_of_cargo3 (cargo3_resolveAsteroidPirateImpacts _ _ _)
          (CargoInv_of_cargo3 (cargo3_resolveAsteroidCollisions _ _)
            (CargoInv_of_cargo3 ⟨rfl, rfl, rfl⟩
              (cargoInv_updateDockedSystems _ (min dt 0.05) hbase)))
      | exact CargoInv_of_cargo3 (cargo3_resolveAsteroidPirateImpacts _ _ _)
          (CargoInv_of_cargo3 (cargo3_resolveAsteroidCollisions _ _)
            (CargoInv_of_cargo3 ⟨rfl, rfl, rfl⟩ hLaunch))

/-! The invariant holds at creation, and is preserved by every step, so it
holds in every reachable state. -/

theorem binsGood_createCargoBins : BinsGood createCargoBins := by
  intro r
  cases r <;> refine ⟨rfl, ⟨0, ?_⟩, ?_⟩ <;> norm_num [getBin, createCargoBins]

theorem cargoInv_createRuntime (fm : FloatModel) (seed : ℤ) (mods : RunModifiers)
    (h : 0 ≤ mods.cargoCapacity) : CargoInv (createRuntime fm seed mods) := by
  refine ⟨binsGood_createCargoBins, ?_, ?_⟩
  · show (0 : ℚ) = binVolumeSum createCargoBins
    norm_num [binVolumeSum, createCargoBins, RESOURCES]
  · show (0 : ℚ) ≤ mods.cargoCapacity
    exact h

theorem cargoInv_runSeq (fm : FloatModel) (s : GameRuntime)
    (inputs : List (ℚ × ControlInput)) (h : CargoInv s) :
    CargoInv (runSeq fm s inputs) := by
  unfold runSeq
  refine foldl_inv _ CargoInv ?_ inputs s h
  intro a b ha
  exact cargoInv_stepRuntime fm a b.1 b.2 ha

/-- A concrete float model used to instantiate theorems at specific inputs. -/
def fm0 : FloatModel :=
  { exp := fun x => 1 + x, sin := fun _ => 0, cos := fun _ => 1,
    sqrt := fun _ => 1, powq := fun _ _ => 1, pi := 3 }

/-- C2 (amended): cargo conservation holds in every state reachable from
createRuntime by stepRuntime sequences, provided the configured cargo
capacity is nonnegative: cargoUsed equals the volume-weighted sum of bin
units, every bin holds a nonnegative (natural) unit count, and cargoUsed
never exceeds cargoCapacity. -/
theorem C2_cargo_conservation (fm : FloatModel) (seed : ℤ) (mods : RunModifiers)
    (inputs : List (ℚ × ControlInput)) (h : 0 ≤ mods.cargoCapacity) :
    (∀ r, 0 ≤ (getBin (runSeq fm (createRuntime fm seed mods) inputs).cargoBins r).units) ∧
      (runSeq fm (createRuntime fm seed mods) inputs).cargoUsed =
        binVolumeSum (runSeq fm (createRuntime fm seed mods) inputs).cargoBins ∧
      (runSeq fm (createRuntime fm seed mods) inputs).cargoUsed ≤
        (runSeq fm (createRuntime fm seed mods) inputs).cargoCapacity := by
  obtain ⟨hb, hu, hc⟩ :=
    cargoInv_runSeq fm (createRuntime fm seed mods) inputs
      (cargoInv_createRuntime fm seed mods h)
  exact ⟨fun r => unit_nonneg_of_binsGood hb r, hu, hc⟩

/-- Witness for C2: the amended theorem applied at a concrete seed, the
default modifiers and the empty input sequence. -/
theorem C2_cargo_conservation_witness :
    0 ≤ DEFAULT_RUN_MODIFIERS.cargoCapacity ∧
      ((∀ r, 0 ≤ (getBin (runSeq fm0 (createRuntime fm0 1 DEFAULT_RUN_MODIFIERS)
            []).cargoBins r).units) ∧
        (runSeq fm0 (createRuntime fm0 1 DEFAULT_RUN_MODIFIERS) []).cargoUsed =
          binVolumeSum (runSeq fm0 (createRuntime fm0 1 DEFAULT_RUN_MODIFIERS) []).cargoBins ∧
        (runSeq fm0 (createRuntime fm0 1 DEFAULT_RUN_MODIFIERS) []).cargoUsed ≤
          (runSeq fm0 (createRuntime fm0 1 DEFAULT_RUN_MODIFIERS) []).cargoCapacity) :=
  ⟨by norm_num [DEFAULT_RUN_MODIFIERS, BASE_CARGO_CAPACITY],
    C2_cargo_conservation fm0 1 DEFAULT_RUN_MODIFIERS []
      (by norm_num [DEFAULT_RUN_MODIFIERS, BASE_CARGO_CAPACITY])⟩

/-- Counterexample to C2 as frozen: with a negative configured cargo
capacity (which createRuntime does not clamp), the initial state itself is
reachable (empty step sequence) and violates cargoUsed ≤ cargoCapacity. -/
theorem C2_counterexample :
    ¬ ((∀ r, 0 ≤ (getBin (runSeq fm0 (createRuntime fm0 1
            { DEFAULT_RUN_MODIFIERS with cargoCapacity := -5 }) []).cargoBins r).units) ∧
      (runSeq fm0 (createRuntime fm0 1
          { DEFAULT_RUN_MODIFIERS with cargoCapacity := -5 }) []).cargoUsed =
        binVolumeSum (runSeq fm0 (createRuntime fm0 1
          { DEFAULT_RUN_MODIFIERS with cargoCapacity := -5 }) []).cargoBins ∧
      (runSeq fm0 (createRuntime fm0 1
          { DEFAULT_RUN_MODIFIERS with cargoCapacity := -5 }) []).cargoUsed ≤
        (runSeq fm0 (createRuntime fm0 1
          { DEFAULT_RUN_MODIFIERS with cargoCapacity := -5 }) []).cargoCapacity) := by
  intro hcl
  have h := hcl.2.2
  have : ¬ ((0 : ℚ) ≤ -5) := by norm_num
  exact this h

/-- C1: determinism.  The embedded runtime is a deterministic function of
the seed, the modifiers and the recorded input sequence: two independent
executions of createRuntime followed by the same stepRuntime sequence end
in identical states (all fields, including positions, velocities, cargo,
hull, pirate state, status and the event log). -/
theorem C1_determinism (fm : FloatModel) (seed1 seed2 : ℤ) (mods1 mods2 : RunModifiers)
    (inputs1 inputs2 : List (ℚ × ControlInput)) (h1 : seed1 = seed2) (h2 : mods1 = mods2)
    (h3 : inputs1 = inputs2) :
    runSeq fm (createRuntime fm seed1 mods1) inputs1 =
      runSeq fm (createRuntime fm seed2 mods2) inputs2 := by
  rw [h1, h2, h3]

/-- Witness for C1 at seed 1, the default modifiers and the empty input
sequence. -/
theorem C1_determinism_witness :
    (1 : ℤ) = 1 ∧ DEFAULT_RUN_MODIFIERS = DEFAULT_RUN_MODIFIERS ∧
      ([] : List (ℚ × ControlInput)) = [] ∧
      runSeq fm0 (createRuntime fm0 1 DEFAULT_RUN_MODIFIERS) [] =
        runSeq fm0 (createRuntime fm0 1 DEFAULT_RUN_MODIFIERS) [] :=
  ⟨rfl, rfl, rfl,
    C1_determinism fm0 1 1 DEFAULT_RUN_MODIFIERS DEFAULT_RUN_MODIFIERS [] [] rfl rfl rfl⟩

/-- C5: terminal outcome freeze.  Once status is won or lost, a step
only records the key snapshot: the whole new state is the old state with
prevKeys replaced by the incoming keys, every other field untouched. -/
theorem C5_terminal_freeze (fm : FloatModel) (s : GameRuntime) (dt : ℚ) (i : ControlInput)
    (h : s.status = GameStatus.won ∨ s.status = GameStatus.lost) :
    stepRuntime fm s dt i = { s with prevKeys := i.keys } := by
  have hne : s.status ≠ GameStatus.active := by
    rcases h with h | h <;> rw [h] <;> intro hc <;> exact GameStatus.noConfusion hc
  unfold stepRuntime
  dsimp only
  rw [if_pos hne]
  rfl

/-- Witness for C5: a freshly created runtime marked won, stepped with
all keys up. -/
theorem C5_terminal_freeze_witness :
    (({ createRuntime fm0 1 DEFAULT_RUN_MODIFIERS with status := GameStatus.won } :
          GameRuntime).status = GameStatus.won ∨
        ({ createRuntime fm0 1 DEFAULT_RUN_MODIFIERS with status := GameStatus.won } :
          GameRuntime).status = GameStatus.lost) ∧
      stepRuntime fm0
          { createRuntime fm0 1 DEFAULT_RUN_MODIFIERS with status := GameStatus.won } 1
          ⟨Keys.allUp⟩ =
        { { createRuntime fm0 1 DEFAULT_RUN_MODIFIERS with status := GameStatus.won } with
            prevKeys := (⟨Keys.allUp⟩ : ControlInput).keys } :=
  ⟨Or.inl rfl, C5_terminal_freeze fm0 _ 1 ⟨Keys.allUp⟩ (Or.inl rfl)⟩

/-- C6: mission outcome rules at the outcome-evaluation point, plus the
independent boarding check of the pirate sub-machine.  With status
active: hull ≤ 0 forces lost; otherwise a countdown at or below zero
forces won when docked and lost when undocked.  Independently, an
incoming pirate whose board timer has run out (after this step's
decrement) becomes boarding and forces lost in the same update. -/
theorem C6_mission_outcome_rules (fm : FloatModel) (s : GameRuntime) (dt : ℚ)
    (hact : s.status = GameStatus.active) :
    ((s.hull ≤ 0 → (evaluateMissionOutcome s).status = GameStatus.lost) ∧
        (¬ s.hull ≤ 0 → s.missionSeconds ≤ 0 → s.docked = true →
          (evaluateMissionOutcome s).status = GameStatus.won) ∧
        (¬ s.hull ≤ 0 → s.missionSeconds ≤ 0 → s.docked = false →
          (evaluateMissionOutcome s).status = GameStatus.lost)) ∧
      (s.pirateState = PirateState.incoming →
        optNonpos (optSubClamp s.pirateBoardTimer dt) = true →
        (updatePirate fm s dt).pirateState = PirateState.boarding ∧
          (updatePirate fm s dt).status = GameStatus.lost) := by
  constructor
  · refine ⟨?_, ?_, ?_⟩
    · intro hh
      unfold evaluateMissionOutcome
      dsimp only
      rw [if_neg (by simp [hact]), if_pos hh]
      simp
    · intro hh hm hd
      unfold evaluateMissionOutcome
      dsimp only
      rw [if_neg (by simp [hact]), if_neg hh, if_pos hm, if_pos hd]
      simp
    · intro hh hm hd
      unfold evaluateMissionOutcome
      dsimp only
      rw [if_neg (by simp [hact]), if_neg hh, if_pos hm, if_neg (by simp [hd])]
      simp
  · intro hp ht
    unfold updatePirate
    dsimp only
    rw [if_neg (show ¬((decide (s.pirateState = PirateState.quiet) &&
        geOpt s.elapsed s.pirateTriggerAt) = true) by simp [hp])]
    rw [if_neg (show ¬(s.pirateState ≠ PirateState.incoming) by simp [hp])]
    split
    all_goals
      first
      | (constructor <;> simp)
      | (exfalso; simp_all)
      | (split <;>
          first
          | (constructor <;> simp)
          | (exfalso; simp_all))

/-- Witness for C6: a fresh runtime (status active) with dt = 1. -/
theorem C6_mission_outcome_rules_witness :
    (createRuntime fm0 1 DEFAULT_RUN_MODIFIERS).status = GameStatus.active ∧
      ((((createRuntime fm0 1 DEFAULT_RUN_MODIFIERS).hull ≤ 0 →
            (evaluateMissionOutcome (createRuntime fm0 1 DEFAULT_RUN_MODIFIERS)).status =
              GameStatus.lost) ∧
          (¬ (createRuntime fm0 1 DEFAULT_RUN_MODIFIERS).hull ≤ 0 →
            (createRuntime fm0 1 DEFAULT_RUN_MODIFIERS).missionSeconds ≤ 0 →
            (createRuntime fm0 1 DEFAULT_RUN_MODIFIERS).docked = true →
            (evaluateMissionOutcome (createRuntime fm0 1 DEFAULT_RUN_MODIFIERS)).status =
              GameStatus.won) ∧
          (¬ (createRuntime fm0 1 DEFAULT_RUN_MODIFIERS).hull ≤ 0 →
            (createRuntime fm0 1 DEFAULT_RUN_MODIFIERS).missionSeconds ≤ 0 →
            (createRuntime fm0 1 DEFAULT_RUN_MODIFIERS).docked = false →
            (evaluateMissionOutcome (createRuntime fm0 1 DEFAULT_RUN_MODIFIERS)).status =
              GameStatus.lost)) ∧
        ((createRuntime fm0 1 DEFAULT_RUN_MODIFIERS).pirateState = PirateState.incoming →
          optNonpos (optSubClamp
            (createRuntime fm0 1 DEFAULT_RUN_MODIFIERS).pirateBoardTimer 1) = true →
          (updatePirate fm0 (createRuntime fm0 1 DEFAULT_RUN_MODIFIERS) 1).pirateState =
              PirateState.boarding ∧
            (updatePirate fm0 (createRuntime fm0 1 DEFAULT_RUN_MODIFIERS) 1).status =
              GameStatus.lost)) :=
  ⟨rfl, C6_mission_outcome_rules fm0 (createRuntime fm0 1 DEFAULT_RUN_MODIFIERS) 1 rfl⟩

/-! Pirate-state frame layer: every step component other than the pirate
machine itself leaves pirateState untouched, and the pirate machine only
acts from the quiet and incoming states. -/

@[simp] theorem updateFreighterTransit_pirateState (s : GameRuntime) :
    (updateFreighterTransit s).pirateState = s.pirateState := rfl

@[simp] theorem updatePrevKeys_pirateState (s : GameRuntime) (k : Keys) :
    (updatePrevKeys s k).pirateState = s.pirateState := rfl

@[simp] theorem updatePlayerControlWithInput_pirateState (fm : FloatModel) (s : GameRuntime)
    (dt : ℚ) (i : ControlInput) :
    (updatePlayerControlWithInput fm s dt i).pirateState = s.pirateState := rfl

@[simp] theorem resolveAsteroidCollisions_pirateState (fm : FloatModel) (s : GameRuntime) :
    (resolveAsteroidCollisions fm s).pirateState = s.pirateState := rfl

@[simp] theorem applyFreighterDockActions_pirateState (fm : FloatModel) (s : GameRuntime)
    (k : Keys) : (applyFreighterDockActions fm s k).pirateState = s.pirateState := by
  unfold applyFreighterDockActions
  dsimp only
  repeat' split
  all_goals rfl

@[simp] theorem updateGrabber_pirateState (fm : FloatModel) (s : GameRuntime) (k : Keys) :
    (updateGrabber fm s k).pirateState = s.pirateState := by
  unfold updateGrabber
  dsimp only
  repeat' split
  all_goals rfl

@[simp] theorem moveGrabbedAsteroid_pirateState (fm : FloatModel) (s : GameRuntime) (dt : ℚ) :
    (moveGrabbedAsteroid fm s dt).pirateState = s.pirateState := by
  unfold moveGrabbedAsteroid
  dsimp only
  repeat' split
  all_goals rfl

@[simp] theorem launchCargoShot_pirateState (fm : FloatModel) (s : GameRuntime) (k : Keys) :
    (launchCargoShot fm s k).pirateState = s.pirateState := by
  unfold launchCargoShot
  dsimp only
  repeat' split
  all_goals simp

@[simp] theorem launchWeaponShot_pirateState (fm : FloatModel) (s : GameRuntime) (k : Keys) :
    (launchWeaponShot fm s k).pirateState = s.pirateState := by
  unfold launchWeaponShot
  dsimp only
  repeat' split
  all_goals rfl

@[simp] theorem evaluateMissionOutcome_pirateState (s : GameRuntime) :
    (evaluateMissionOutcome s).pirateState = s.pirateState := by
  unfold evaluateMissionOutcome
  dsimp only
  repeat' split
  all_goals rfl

@[simp] theorem playerImpactBody_pirateState (fm : FloatModel) (s : GameRuntime)
    (a : AsteroidSim) : (playerImpactBody fm s a).pirateState = s.pirateState := by
  unfold playerImpactBody
  dsimp only
  repeat' split
  all_goals simp

@[simp] theorem resolvePlayerAsteroidImpacts_pirateState (fm : FloatModel) (s : GameRuntime)
    (dt : ℚ) : (resolvePlayerAsteroidImpacts fm s dt).pirateState = s.pirateState := by
  unfold resolvePlayerAsteroidImpacts
  dsimp only
  exact (foldl_obs (playerImpactBody fm) (fun st => st.pirateState)
    (fun a b => playerImpactBody_pirateState fm a b) _ _).trans rfl

@[simp] theorem drillYield_pirateState (s : GameRuntime) (ast : AsteroidSim) :
    ((drillYield s ast).1).pirateState = s.pirateState := by
  unfold drillYield
  dsimp only
  repeat' split
  all_goals simp

@[simp] theorem drillUnits_fst_pirateState (s : GameRuntime) (r : ResourceId) :
    ((drillUnits s r).1).pirateState = s.pirateState := by
  unfold drillUnits
  dsimp only
  repeat' split
  all_goals simp

@[simp] theorem drillTick_fst_pirateState (s : GameRuntime) (ast : AsteroidSim) :
    ((drillTick s ast).1).pirateState = s.pirateState := by
  unfold drillTick
  dsimp only
  repeat' split
  all_goals simp [drillUnits_fst_pirateState, drillYield_pirateState]

theorem drillLoop_fst_pirateState :
    ∀ (fuel : ℕ) (s : GameRuntime) (ast : AsteroidSim),
      ((drillLoop s ast fuel).1).pirateState = s.pirateState := by
  intro fuel
  induction fuel with
  | zero => intro s ast; rfl
  | succ fuel ih =>
    intro s ast
    unfold drillLoop
    dsimp only
    repeat' split
    all_goals
      first
      | rfl
      | exact drillTick_fst_pirateState s ast
      | exact (ih _ _).trans (drillTick_fst_pirateState s ast)

@[simp] theorem updateDrill_pirateState (s : GameRuntime) (dt : ℚ) (k : Keys) :
    (updateDrill s dt k).pirateState = s.pirateState := by
  unfold updateDrill
  dsimp only
  repeat' split
  all_goals first | rfl | simp [drillLoop_fst_pirateState]

theorem unloadLoop_pirateState :
    ∀ (fuel : ℕ) (s : GameRuntime), (unloadLoop s fuel).pirateState = s.pirateState := by
  intro fuel
  induction fuel with
  | zero => intro s; rfl
  | succ fuel ih =>
    intro s
    unfold unloadLoop
    dsimp only
    repeat' split
    all_goals
      first
      | rfl
      | exact (ih _).trans (by simp)
      | (simp; done)

@[simp] theorem updateDockedSystems_pirateState (s : GameRuntime) (dt : ℚ) :
    (updateDockedSystems s dt).pirateState = s.pirateState := by
  unfold updateDockedSystems
  dsimp only
  repeat' split
  all_goals first | rfl | simp [unloadLoop_pirateState]

/-! The pirate machine itself is inert outside quiet and incoming. -/

theorem updatePirate_frozen (fm : FloatModel) (s : GameRuntime) (dt : ℚ)
    (h1 : s.pirateState ≠ PirateState.quiet) (h2 : s.pirateState ≠ PirateState.incoming) :
    updatePirate fm s dt = s := by
  unfold updatePirate
  dsimp only
  rw [if_neg (show ¬((decide (s.pirateState = PirateState.quiet) &&
      geOpt s.elapsed s.pirateTriggerAt) = true) by simp [h1])]
  rw [if_pos h2]

theorem resolveAsteroidPirateImpacts_frozen (fm : FloatModel) (s : GameRuntime) (dt : ℚ)
    (h : s.pirateState ≠ PirateState.incoming) : resolveAsteroidPirateImpacts fm s dt = s := by
  unfold resolveAsteroidPirateImpacts
  dsimp only
  rw [if_pos h]

theorem resolvePlayerPirateImpact_frozen (fm : FloatModel) (s : GameRuntime) (dt : ℚ)
    (h : s.pirateState ≠ PirateState.incoming) : resolvePlayerPirateImpact fm s dt = s := by
  unfold resolvePlayerPirateImpact
  dsimp only
  rw [if_pos h]

theorem shotHitPirate_frozen (fm : FloatModel) (s : GameRuntime) (shot : CargoShot)
    (h : s.pirateState ≠ PirateState.incoming) : shotHitPirate fm s shot = (s, false) := by
  unfold shotHitPirate
  dsimp only
  rw [if_neg h]

theorem cargoShotBody_fst_frozen (fm : FloatModel) (dt : ℚ) (acc : GameRuntime × List CargoShot)
    (shot : CargoShot) (h : acc.1.pirateState ≠ PirateState.incoming) :
    (cargoShotBody fm dt acc shot).1 = acc.1 := by
  unfold cargoShotBody
  dsimp only
  rw [shotHitPirate_frozen _ _ _ h]
  repeat' split
  all_goals first | rfl | (exfalso; simp_all)

theorem updateCargoShots_pirateState_frozen (fm : FloatModel) (s : GameRuntime) (dt : ℚ)
    (h : s.pirateState ≠ PirateState.incoming) :
    (updateCargoShots fm s dt).pirateState = s.pirateState := by
  have hr : (s.cargoShots.foldl (cargoShotBody fm dt) (s, [])).1 = s :=
    foldl_inv (cargoShotBody fm dt) (fun acc => acc.1 = s)
      (fun acc b ha =>
        (cargoShotBody_fst_frozen fm dt acc b (by rw [ha]; exact h)).trans ha)
      s.cargoShots (s, []) rfl
  unfold updateCargoShots
  dsimp only
  show ((s.cargoShots.foldl (cargoShotBody fm dt) (s, [])).1).pirateState = s.pirateState
  rw [hr]

/-! Transport of a frozen pirate state through one step and a whole run. -/

theorem pFroz_updatePirate (fm : FloatModel) (s : GameRuntime) (dt : ℚ) {v : PirateState}
    (hv1 : v ≠ PirateState.quiet) (hv2 : v ≠ PirateState.incoming)
    (h : s.pirateState = v) : (updatePirate fm s dt).pirateState = v := by
  rw [updatePirate_frozen fm s dt (fun hc => hv1 (h.symm.trans hc))
    (fun hc => hv2 (h.symm.trans hc))]
  exact h

theorem pFroz_resolveAsteroidPirateImpacts (fm : FloatModel) (s : GameRuntime) (dt : ℚ)
    {v : PirateState} (hv2 : v ≠ PirateState.incoming) (h : s.pirateState = v) :
    (resolveAsteroidPirateImpacts fm s dt).pirateState = v := by
  rw [resolveAsteroidPirateImpacts_frozen fm s dt (fun hc => hv2 (h.symm.trans hc))]
  exact h

theorem pFroz_resolvePlayerPirateImpact (fm : FloatModel) (s : GameRuntime) (dt : ℚ)
    {v : PirateState} (hv2 : v ≠ PirateState.incoming) (h : s.pirateState = v) :
    (resolvePlayerPirateImpact fm s dt).pirateState = v := by
  rw [resolvePlayerPirateImpact_frozen fm s dt (fun hc => hv2 (h.symm.trans hc))]
  exact h

theorem pFroz_updateCargoShots (fm : FloatModel) (s : GameRuntime) (dt : ℚ)
    {v : PirateState} (hv2 : v ≠ PirateState.incoming) (h : s.pirateState = v) :
    (updateCargoShots fm s dt).pirateState = v :=
  (updateCargoShots_pirateState_frozen fm s dt (fun hc => hv2 (h.symm.trans hc))).trans h

theorem pirate_step (fm : FloatModel) (s : GameRuntime) (dt : ℚ) (i : ControlInput)
    {v : PirateState} (hv1 : v ≠ PirateState.quiet) (hv2 : v ≠ PirateState.incoming)
    (h : s.pirateState = v) : (stepRuntime fm s dt i).pirateState = v := by
  have hbase : (applyFreighterDockActions fm (updateFreighterTransit
      { s with
        elapsed := s.elapsed + min dt 0.05
        missionSeconds := s.missionSeconds - min dt 0.05 * s.countdownRate
        drillActive := false }) i.keys).pirateState = v :=
    (applyFreighterDockActions_pirateState _ _ _).trans
      ((updateFreighterTransit_pirateState _).trans h)
  have hLaunch : (launchWeaponShot fm (launchCargoShot fm (moveGrabbedAsteroid fm
      (updateGrabber fm (updatePlayerControlWithInput fm (applyFreighterDockActions fm
        (updateFreighterTransit
          { s with
            elapsed := s.elapsed + min dt 0.05
            missionSeconds := s.missionSeconds - min dt 0.05 * s.countdownRate
            drillActive := false }) i.keys) (min dt 0.05) i) i.keys) (min dt 0.05))
      i.keys) i.keys).pirateState = v :=
    (launchWeaponShot_pirateState _ _ _).trans
      ((launchCargoShot_pirateState _ _ _).trans
        ((moveGrabbedAsteroid_pirateState _ _ _).trans
          ((updateGrabber_pirateState _ _ _).trans
            ((updatePlayerControlWithInput_pirateState _ _ _ _).trans hbase))))
  unfold stepRuntime
  dsimp only
  split
  · exact h
  · refine (updatePrevKeys_pirateState _ _).trans ?_
    refine (evaluateMissionOutcome_pirateState _).trans ?_
    refine pFroz_updatePirate fm _ _ hv1 hv2 ?_
    refine pFroz_updateCargoShots fm _ _ hv2 ?_
    split
    all_goals split
    all_goals
      first
      | exact (updateDrill_pirateState _ _ _).trans
          (pFroz_resolvePlayerPirateImpact fm _ _ hv2
            ((resolvePlayerAsteroidImpacts_pirateState _ _ _).trans
              (pFroz_resolveAsteroidPirateImpacts fm _ _ hv2
                ((resolveAsteroidCollisions_pirateState _ _).trans
                  ((updateDockedSystems_pirateState _ _).trans hbase)))))
      | exact (updateDrill_pirateState _ _ _).trans
          (pFroz_resolvePlayerPirateImpact fm _ _ hv2
            ((resolvePlayerAsteroidImpacts_pirateState _ _ _).trans
              (pFroz_resolveAsteroidPirateImpacts fm _ _ hv2
                ((resolveAsteroidCollisions_pirateState _ _).trans hLaunch))))
      | exact pFroz_resolveAsteroidPirateImpacts fm _ _ hv2
          ((resolveAsteroidCollisions_pirateState _ _).trans
            ((updateDockedSystems_pirateState _ _).trans hbase))
      | exact pFroz_resolveAsteroidPirateImpacts fm _ _ hv2
          ((resolveAsteroidCollisions_pirateState _ _).trans hLaunch)

theorem pirate_runSeq (fm : FloatModel) (s : GameRuntime)
    (inputs : List (ℚ × ControlInput)) {v : PirateState}
    (hv1 : v ≠ PirateState.quiet) (hv2 : v ≠ PirateState.incoming)
    (h : s.pirateState = v) : (runSeq fm s inputs).pirateState = v := by
  unfold runSeq
  refine foldl_inv _ (fun st => st.pirateState = v) ?_ inputs s h
  intro a b ha
  exact pirate_step fm a b.1 b.2 hv1 hv2 ha

/-- C4: pirate state monotonicity.  Once pirateState is disabled or
boarding, no sequence of further stepRuntime calls (any dt, any input)
ever changes it: the pirate machine only transitions out of quiet and
incoming, and every other step component leaves pirateState untouched. -/
theorem C4_pirate_state_monotonic (fm : FloatModel) (s : GameRuntime)
    (inputs : List (ℚ × ControlInput))
    (h : s.pirateState = PirateState.disabled ∨ s.pirateState = PirateState.boarding) :
    (runSeq fm s inputs).pirateState = s.pirateState := by
  rcases h with h | h
  · rw [h]
    exact pirate_runSeq fm s inputs (by intro hc; cases hc) (by intro hc; cases hc) h
  · rw [h]
    exact pirate_runSeq fm s inputs (by intro hc; cases hc) (by intro hc; cases hc) h

/-- A fresh runtime with the pirate already disabled, used to instantiate
the pirate monotonicity theorem. -/
def disabledStart : GameRuntime :=
  { createRuntime fm0 1 DEFAULT_RUN_MODIFIERS with pirateState := PirateState.disabled }

/-- Witness for C4: a disabled pirate stays disabled across a step. -/
theorem C4_pirate_state_monotonic_witness :
    (disabledStart.pirateState = PirateState.disabled ∨
        disabledStart.pirateState = PirateState.boarding) ∧
      (runSeq fm0 disabledStart [(1, ⟨Keys.allUp⟩)]).pirateState =
        disabledStart.pirateState :=
  ⟨Or.inl rfl,
    C4_pirate_state_monotonic fm0 disabledStart [(1, ⟨Keys.allUp⟩)] (Or.inl rfl)⟩

/-! Weapon-ammo frame layer: weaponMaxAmmo is never written after
creation, and weaponAmmo is written only by launchWeaponShot, which can
only decrement it (by 1, from a positive value). -/

@[simp] theorem shotHitPirate_fst_weaponAmmo (fm : FloatModel) (s : GameRuntime)
    (shot : CargoShot) : ((shotHitPirate fm s shot).1).weaponAmmo = s.weaponAmmo := by
  unfold shotHitPirate
  dsimp only
  repeat' split
  all_goals first | rfl | (simp; done)

@[simp] theorem shotHitPirate_fst_weaponMaxAmmo (fm : FloatModel) (s : GameRuntime)
    (shot : CargoShot) : ((shotHitPirate fm s shot).1).weaponMaxAmmo = s.weaponMaxAmmo := by
  unfold shotHitPirate
  dsimp only
  repeat' split
  all_goals first | rfl | (simp; done)

@[simp] theorem drillYield_weaponAmmo (s : GameRuntime) (ast : AsteroidSim) :
    ((drillYield s ast).1).weaponAmmo = s.weaponAmmo := by
  unfold drillYield
  dsimp only
  repeat' split
  all_goals simp

@[simp] theorem drillYield_weaponMaxAmmo (s : GameRuntime) (ast : AsteroidSim) :
    ((drillYield s ast).1).weaponMaxAmmo = s.weaponMaxAmmo := by
  unfold drillYield
  dsimp only
  repeat' split
  all_goals simp

@[simp] theorem drillUnits_fst_weaponAmmo (s : GameRuntime) (r : ResourceId) :
    ((drillUnits s r).1).weaponAmmo = s.weaponAmmo := by
  unfold drillUnits
  dsimp only
  repeat' split
  all_goals simp

@[simp] theorem drillUnits_fst_weaponMaxAmmo (s : GameRuntime) (r : ResourceId) :
    ((drillUnits s r).1).weaponMaxAmmo = s.weaponMaxAmmo := by
  unfold drillUnits
  dsimp only
  repeat' split
  all_goals simp

/-- C7 (amended): createRuntime clamps exactly three modifier inputs —
rammerDamageMultiplier to at least 1, rammerSelfDamageMultiplier into
[0.2, 1], and (internally) the pirate encounter chance into [0, 1] — and
copies every other modifier-derived field through verbatim, unclamped:
grabberRange, thrusterMultiplier, drillMultiplier, maxHull (also the
initial hull), cargoCapacity, weaponAmmo (also weaponMaxAmmo) and
weaponDamage are exactly the caller-supplied values, whatever they are. -/
theorem C7_modifier_clamping (fm : FloatModel) (seed : ℤ) (mods : RunModifiers) :
    1 ≤ (createRuntime fm seed mods).rammerDamageMultiplier ∧
      0.2 ≤ (createRuntime fm seed mods).rammerSelfDamageMultiplier ∧
      (createRuntime fm seed mods).rammerSelfDamageMultiplier ≤ 1 ∧
      (createRuntime fm seed mods).grabberRange = mods.grabberRange ∧
      (createRuntime fm seed mods).thrusterMultiplier = mods.thrusterMultiplier ∧
      (createRuntime fm seed mods).drillMultiplier = mods.drillMultiplier ∧
      (createRuntime fm seed mods).maxHull = mods.maxHull ∧
      (createRuntime fm seed mods).hull = mods.maxHull ∧
      (createRuntime fm seed mods).cargoCapacity = mods.cargoCapacity ∧
      (createRuntime fm seed mods).weaponAmmo = mods.weaponAmmo ∧
      (createRuntime fm seed mods).weaponMaxAmmo = mods.weaponAmmo ∧
      (createRuntime fm seed mods).weaponDamage = mods.weaponDamage := by
  refine ⟨?_, ?_, ?_, rfl, rfl, rfl, rfl, rfl, rfl, rfl, rfl, rfl⟩
  · show 1 ≤ max 1 mods.rammerDamageMultiplier
    exact le_max_left _ _
  · show 0.2 ≤ jsClamp mods.rammerSelfDamageMultiplier 0.2 1
    exact le_max_left _ _
  · show jsClamp mods.rammerSelfDamageMultiplier 0.2 1 ≤ 1
    exact max_le (by norm_num) (min_le_left _ _)

/-- Counterexample to C7 as frozen: the claim names maxHull (among
others) as clamped to a sane range, but createRuntime copies it through
unclamped, so a negative modifier yields a runtime whose maxHull (and
initial hull) is negative. -/
theorem C7_counterexample :
    (createRuntime fm0 1 { DEFAULT_RUN_MODIFIERS with maxHull := -10 }).maxHull < 0 := by
  show (-10 : ℚ) < 0
  norm_num

/-- C8 (amended): cargo-full warning latch and drill halt.  A
zero-acceptance addCargo warns exactly once: with the latch clear it
emits the warning (one event, capped log) and sets the latch; with the
latch set it returns the state unchanged.  The latch is reset only by
removing a cargo unit (takeCargoUnitForLaunch / takeCargoUnitForUnload
succeeding); a successful addCargo leaves the latch as it was (it does
not reset it, contrary to the frozen claim).  A zero-acceptance
extraction tick switches drillActive off and stops the extraction loop. -/
theorem C8_cargo_full_latch (s : GameRuntime) (r : ResourceId) (u : ℚ) (ast : AsteroidSim) :
    ((addCargo s r u).2 ≤ 0 → s.cargoFullWarned = false →
        ((addCargo s r u).1).cargoFullWarned = true ∧
          ((addCargo s r u).1).events.length = min 6 (s.events.length + 1)) ∧
      ((addCargo s r u).2 ≤ 0 → s.cargoFullWarned = true → (addCargo s r u).1 = s) ∧
      (0 < (addCargo s r u).2 →
        ((addCargo s r u).1).cargoFullWarned = s.cargoFullWarned) ∧
      (((takeCargoUnitForLaunch s).2).isSome = true →
        ((takeCargoUnitForLaunch s).1).cargoFullWarned = false) ∧
      (((takeCargoUnitForUnload s).2).isSome = true →
        ((takeCargoUnitForUnload s).1).cargoFullWarned = false) ∧
      ((addCargo (drillUnits (sampleAsteroidResource
            { s with drillAccumulator := s.drillAccumulator - 1 } ast).1
            (sampleAsteroidResource
              { s with drillAccumulator := s.drillAccumulator - 1 } ast).2).1
          (sampleAsteroidResource
            { s with drillAccumulator := s.drillAccumulator - 1 } ast).2
          (drillUnits (sampleAsteroidResource
            { s with drillAccumulator := s.drillAccumulator - 1 } ast).1
            (sampleAsteroidResource
              { s with drillAccumulator := s.drillAccumulator - 1 } ast).2).2).2 ≤ 0 →
        ((drillTick s ast).1).drillActive = false ∧ (drillTick s ast).2.2 = false) := by
  refine ⟨?_, ?_, ?_, ?_, ?_, ?_⟩
  · intro hz hw
    revert hz
    unfold addCargo
    dsimp only
    split
    · intro hz
      rw [hw]
      constructor
      · rfl
      · first
        | (simp [addEvent, List.length_take]; done)
        | (simp [addEvent, List.length_take]; omega)
    · intro hz
      rename_i hc
      exact absurd hz hc
  · intro hz hw
    revert hz
    unfold addCargo
    dsimp only
    split
    · intro hz
      rw [hw]
      simp
    · intro hz
      rename_i hc
      exact absurd hz hc
  · revert r
    intro r
    unfold addCargo
    dsimp only
    split
    · split
      all_goals intro hpos
      all_goals simp at hpos
    · intro hpos
      rfl
  · intro hs
    revert hs
    unfold takeCargoUnitForLaunch
    dsimp only
    split
    · intro hs
      simp at hs
    · intro hs
      rfl
  · intro hs
    revert hs
    unfold takeCargoUnitForUnload
    dsimp only
    split
    · intro hs
      simp at hs
    · intro hs
      rfl
  · intro hz
    unfold drillTick
    dsimp only
    rw [if_pos hz]
    exact ⟨rfl, rfl⟩

/-- Counterexample to C8 as frozen: the frozen claim says any cargo
change resets the latch.  Start from a fresh runtime with cargo capacity
3: adding a fringeRelic (volume 6) accepts zero units and sets the
latch; then adding a scrapIron (volume 3) succeeds — the cargo changes —
yet the latch is still set, so the next zero-acceptance add will not
warn again. -/
theorem C8_counterexample :
    (addCargo ((addCargo (createRuntime fm0 1
          { DEFAULT_RUN_MODIFIERS with cargoCapacity := 3 }) ResourceId.fringeRelic 1).1)
        ResourceId.scrapIron 1).2 = 1 ∧
      ((addCargo ((addCargo (createRuntime fm0 1
          { DEFAULT_RUN_MODIFIERS with cargoCapacity := 3 }) ResourceId.fringeRelic 1).1)
        ResourceId.scrapIron 1).1).cargoFullWarned = true := by
  have h1 : addCargo (createRuntime fm0 1 { DEFAULT_RUN_MODIFIERS with cargoCapacity := 3 })
      ResourceId.fringeRelic 1 =
      (addEvent { createRuntime fm0 1 { DEFAULT_RUN_MODIFIERS with cargoCapacity := 3 } with
          cargoFullWarned := true }
        "Cargo hold at capacity. Return to freighter to unload." Tone.alert, 0) := by
    unfold addCargo
    dsimp only
    have hcond : min (1 : ℚ)
        ((⌊max 0 ((createRuntime fm0 1
              { DEFAULT_RUN_MODIFIERS with cargoCapacity := 3 }).cargoCapacity -
            (createRuntime fm0 1
              { DEFAULT_RUN_MODIFIERS with cargoCapacity := 3 }).cargoUsed) /
          (RESOURCES ResourceId.fringeRelic).volume⌋ : ℤ) : ℚ) ≤ 0 := by
      rw [show (createRuntime fm0 1
            { DEFAULT_RUN_MODIFIERS with cargoCapacity := 3 }).cargoCapacity = 3 from rfl,
        show (createRuntime fm0 1
            { DEFAULT_RUN_MODIFIERS with cargoCapacity := 3 }).cargoUsed = 0 from rfl]
      norm_num [RESOURCES]
    rw [if_pos hcond]
    have hwcond : (!(createRuntime fm0 1
        { DEFAULT_RUN_MODIFIERS with cargoCapacity := 3 }).cargoFullWarned) = true := rfl
    rw [if_pos hwcond]
  rw [h1]
  dsimp only
  have hcond2 : ¬ (min (1 : ℚ)
      ((⌊max 0 ((addEvent { createRuntime fm0 1
              { DEFAULT_RUN_MODIFIERS with cargoCapacity := 3 } with
            cargoFullWarned := true }
          "Cargo hold at capacity. Return to freighter to unload." Tone.alert).cargoCapacity -
          (addEvent { createRuntime fm0 1
              { DEFAULT_RUN_MODIFIERS with cargoCapacity := 3 } with
            cargoFullWarned := true }
          "Cargo hold at capacity. Return to freighter to unload." Tone.alert).cargoUsed) /
        (RESOURCES ResourceId.scrapIron).volume⌋ : ℤ) : ℚ) ≤ 0) := by
    rw [show (addEvent { createRuntime fm0 1
            { DEFAULT_RUN_MODIFIERS with cargoCapacity := 3 } with
          cargoFullWarned := true }
        "Cargo hold at capacity. Return to freighter to unload." Tone.alert).cargoCapacity =
        3 from rfl,
      show (addEvent { createRuntime fm0 1
            { DEFAULT_RUN_MODIFIERS with cargoCapacity := 3 } with
          cargoFullWarned := true }
        "Cargo hold at capacity. Return to freighter to unload." Tone.alert).cargoUsed =
        0 from rfl]
    norm_num [RESOURCES]
  constructor
  · unfold addCargo
    dsimp only
    rw [if_neg hcond2]
    show min (1 : ℚ)
        ((⌊max 0 ((addEvent { createRuntime fm0 1
                { DEFAULT_RUN_MODIFIERS with cargoCapacity := 3 } with
              cargoFullWarned := true }
            "Cargo hold at capacity. Return to freighter to unload." Tone.alert).cargoCapacity -
            (addEvent { createRuntime fm0 1
                { DEFAULT_RUN_MODIFIERS with cargoCapacity := 3 } with
              cargoFullWarned := true }
            "Cargo hold at capacity. Return to freighter to unload." Tone.alert).cargoUsed) /
          (RESOURCES ResourceId.scrapIron).volume⌋ : ℤ) : ℚ) = 1
    rw [show (addEvent { createRuntime fm0 1
            { DEFAULT_RUN_MODIFIERS with cargoCapacity := 3 } with
          cargoFullWarned := true }
        "Cargo hold at capacity. Return to freighter to unload." Tone.alert).cargoCapacity =
        3 from rfl,
      show (addEvent { createRuntime fm0 1
            { DEFAULT_RUN_MODIFIERS with cargoCapacity := 3 } with
          cargoFullWarned := true }
        "Cargo hold at capacity. Return to freighter to unload." Tone.alert).cargoUsed =
        0 from rfl]
    norm_num [RESOURCES]
  · unfold addCargo
    dsimp only
    rw [if_neg hcond2]
    rfl

/-! Cargo-launch selection: the launched unit always comes from the
highest-value resource present, and the projectile parameters are
derived from that resource. -/

@[simp] theorem addEvent_cargoShots (s : GameRuntime) (m : String) (t : Tone) :
    (addEvent s m t).cargoShots = s.cargoShots := rfl

@[simp] theorem takeCargoUnitForLaunch_fst_cargoShots (s : GameRuntime) :
    ((takeCargoUnitForLaunch s).1).cargoShots = s.cargoShots := by
  unfold takeCargoUnitForLaunch
  dsimp only
  repeat' split
  all_goals rfl

theorem mem_binsPairs_self (b : CargoBins) (r : ResourceId) :
    (r, getBin b r) ∈ binsPairs b := by
  cases r <;> simp [binsPairs, getBin]

theorem pickMaxBy_isSome (key : CargoBin → ℚ) :
    ∀ (l : List (ResourceId × CargoBin)), l ≠ [] → ∃ p, pickMaxBy key l = some p := by
  intro l
  induction l with
  | nil => intro h; exact absurd rfl h
  | cons q rest ih =>
    intro h
    cases hrest : pickMaxBy key rest with
    | none => exact ⟨q, by rw [pickMaxBy, hrest]⟩
    | some q2 =>
      refine ⟨if key q2.2 > key q.2 then q2 else q, ?_⟩
      rw [pickMaxBy, hrest]
      exact (apply_ite some _ _ _).symm

theorem launchKey_eq_value {b : CargoBins} {r : ResourceId} (hg : BinGood r (getBin b r))
    (hpos : 0 < (getBin b r).units) : launchKey (getBin b r) = (RESOURCES r).value := by
  obtain ⟨-, ⟨n, hn⟩, hv⟩ := hg
  unfold launchKey
  rw [hv, hn]
  have hn0 : 0 < n := by
    have hq := hpos
    rw [hn] at hq
    exact_mod_cast hq
  have h1 : (1 : ℚ) ≤ (n : ℚ) := by exact_mod_cast hn0
  have hne : ((n : ℚ)) ≠ 0 := (by positivity : (0 : ℚ) < (n : ℚ)).ne'
  rw [max_eq_right h1, mul_comm, mul_div_assoc, div_self hne, mul_one]

/-- Behaviour of takeCargoUnitForLaunch on a well-formed hold with at
least one unit somewhere: it removes exactly one unit from a bin whose
static resource value is maximal among the nonempty bins, leaves the
other bins alone, resets the cargo-full latch, and reports the taken
resource. -/
theorem takeLaunch_spec (s : GameRuntime) (hb : BinsGood s.cargoBins)
    (r0 : ResourceId) (hpos0 : 0 < (getBin s.cargoBins r0).units) :
    ∃ r : ResourceId,
      (takeCargoUnitForLaunch s).2 = some r ∧
      0 < (getBin s.cargoBins r).units ∧
      (∀ rp, 0 < (getBin s.cargoBins rp).units →
        (RESOURCES rp).value ≤ (RESOURCES r).value) ∧
      (getBin ((takeCargoUnitForLaunch s).1).cargoBins r).units =
        (getBin s.cargoBins r).units - 1 ∧
      (∀ rp, rp ≠ r → getBin ((takeCargoUnitForLaunch s).1).cargoBins rp =
        getBin s.cargoBins rp) := by
  have hmem0 : (r0, getBin s.cargoBins r0) ∈
      (binsPairs s.cargoBins).filter (fun p => decide (p.2.units > 0)) := by
    rw [List.mem_filter]
    exact ⟨mem_binsPairs_self _ _, decide_eq_true hpos0⟩
  obtain ⟨p, hp⟩ := pickMaxBy_isSome launchKey _ (List.ne_nil_of_mem hmem0)
  have hpmem := pickMaxBy_mem launchKey _ p hp
  rw [List.mem_filter] at hpmem
  have hpbins := binsPairs_mem hpmem.1
  have hppos : 0 < p.2.units := of_decide_eq_true hpmem.2
  obtain ⟨slot, binv⟩ := p
  dsimp only at hpbins hppos
  have hrid : binv.resourceId = slot := by
    rw [hpbins]
    exact (hb slot).1
  have hEq : takeCargoUnitForLaunch s =
      ({ s with
          cargoBins := setBin s.cargoBins slot
            { binv with
              units := binv.units - 1
              volume := max 0 (binv.volume - (RESOURCES binv.resourceId).volume)
              value := max 0 (binv.value - (RESOURCES binv.resourceId).value) }
          cargoUsed := max 0 (s.cargoUsed - (RESOURCES binv.resourceId).volume)
          cargoValue := max 0 (s.cargoValue - (RESOURCES binv.resourceId).value)
          cargoFullWarned := false }, some binv.resourceId) := by
    unfold takeCargoUnitForLaunch
    dsimp only
    rw [hp]
  have hspos : 0 < (getBin s.cargoBins slot).units := by
    rw [← hpbins]
    exact hppos
  refine ⟨slot, ?_, hspos, ?_, ?_, ?_⟩
  · rw [hEq]
    dsimp only
    rw [hrid]
  · intro rp hrp
    have hqmem : (rp, getBin s.cargoBins rp) ∈
        (binsPairs s.cargoBins).filter (fun p => decide (p.2.units > 0)) := by
      rw [List.mem_filter]
      exact ⟨mem_binsPairs_self _ _, decide_eq_true hrp⟩
    have hle := pickMaxBy_maximal launchKey _ _ hp _ hqmem
    dsimp only at hle
    rw [launchKey_eq_value (hb rp) hrp, hpbins, launchKey_eq_value (hb slot) hspos] at hle
    exact hle
  · rw [hEq]
    dsimp only
    rw [getBin_setBin_same]
    dsimp only
    rw [hpbins]
  · intro rp hne
    rw [hEq]
    dsimp only
    exact getBin_setBin_ne _ _ _ _ hne

/-- C9: edge-fired cargo launch removes one unit of the highest-value
resource present and spawns one projectile whose damage and
boarding-delay bonus are derived from that resource; with an empty hold
it changes no cargo and spawns nothing. -/
theorem C9_launch_selection (fm : FloatModel) (s : GameRuntime) (keys : Keys)
    (hfire : justPressed s keys (fun k => k.space) = true)
    (hb : BinsGood s.cargoBins) :
    ((∃ r0, 0 < (getBin s.cargoBins r0).units) →
      ∃ r,
        0 < (getBin s.cargoBins r).units ∧
        (∀ rp, 0 < (getBin s.cargoBins rp).units →
          (RESOURCES rp).value ≤ (RESOURCES r).value) ∧
        (getBin (launchCargoShot fm s keys).cargoBins r).units =
          (getBin s.cargoBins r).units - 1 ∧
        (∀ rp, rp ≠ r → getBin (launchCargoShot fm s keys).cargoBins rp =
          getBin s.cargoBins rp) ∧
        (launchCargoShot fm s keys).cargoShots.map
            (fun sh => (sh.damage, sh.delayBonus, sh.resourceId)) =
          s.cargoShots.map (fun sh => (sh.damage, sh.delayBonus, sh.resourceId)) ++
            [(8 + (RESOURCES r).value / 12,
              2 + (8 + (RESOURCES r).value / 12) * 0.16, some r)]) ∧
    ((∀ r0, (getBin s.cargoBins r0).units ≤ 0) →
      (launchCargoShot fm s keys).cargoBins = s.cargoBins ∧
        (launchCargoShot fm s keys).cargoShots = s.cargoShots) := by
  constructor
  · rintro ⟨r0, hr0⟩
    obtain ⟨r, hsome, hrpos, hmax, hdec, hother⟩ := takeLaunch_spec s hb r0 hr0
    have hbins : (launchCargoShot fm s keys).cargoBins =
        ((takeCargoUnitForLaunch s).1).cargoBins := by
      unfold launchCargoShot
      dsimp only
      rw [if_neg (by simp [hfire])]
      split
      all_goals simp
    have hshots : (launchCargoShot fm s keys).cargoShots.map
        (fun sh => (sh.damage, sh.delayBonus, sh.resourceId)) =
        s.cargoShots.map (fun sh => (sh.damage, sh.delayBonus, sh.resourceId)) ++
          [(8 + (RESOURCES r).value / 12,
            2 + (8 + (RESOURCES r).value / 12) * 0.16, some r)] := by
      unfold launchCargoShot
      dsimp only
      rw [if_neg (by simp [hfire])]
      split
      · rename_i heq
        rw [hsome] at heq
        simp at heq
      · rename_i rid heq
        rw [hsome] at heq
        have hq : rid = r := (Option.some.inj heq).symm
        subst hq
        simp
    refine ⟨r, hrpos, hmax, ?_, ?_, hshots⟩
    · rw [hbins]
      exact hdec
    · intro rp hne
      rw [hbins]
      exact hother rp hne
  · intro h0
    have hcand : (binsPairs s.cargoBins).filter (fun p => decide (p.2.units > 0)) = [] := by
      rw [List.eq_nil_iff_forall_not_mem]
      intro a ha
      rw [List.mem_filter] at ha
      have h2 := of_decide_eq_true ha.2
      rw [binsPairs_mem ha.1] at h2
      exact absurd h2 (not_lt.mpr (h0 a.1))
    have hTake : takeCargoUnitForLaunch s = (s, none) := by
      unfold takeCargoUnitForLaunch
      dsimp only
      rw [hcand]
      rfl
    constructor
    · unfold launchCargoShot
      dsimp only
      rw [if_neg (by simp [hfire]), hTake]
      simp
    · unfold launchCargoShot
      dsimp only
      rw [if_neg (by simp [hfire]), hTake]
      simp

/-- Witness for C9: a fresh runtime with the space key freshly pressed
(previous snapshot all keys up). -/
theorem C9_launch_selection_witness :
    justPressed (createRuntime fm0 1 DEFAULT_RUN_MODIFIERS)
        { Keys.allUp with space := true } (fun k => k.space) = true ∧
      BinsGood (createRuntime fm0 1 DEFAULT_RUN_MODIFIERS).cargoBins ∧
      (((∃ r0, 0 < (getBin (createRuntime fm0 1 DEFAULT_RUN_MODIFIERS).cargoBins r0).units) →
      ∃ r,
        0 < (getBin (createRuntime fm0 1 DEFAULT_RUN_MODIFIERS).cargoBins r).units ∧
        (∀ rp, 0 < (getBin (createRuntime fm0 1 DEFAULT_RUN_MODIFIERS).cargoBins rp).units →
          (RESOURCES rp).value ≤ (RESOURCES r).value) ∧
        (getBin (launchCargoShot fm0 (createRuntime fm0 1 DEFAULT_RUN_MODIFIERS) ({ Keys.allUp with space := true } : Keys)).cargoBins r).units =
          (getBin (createRuntime fm0 1 DEFAULT_RUN_MODIFIERS).cargoBins r).units - 1 ∧
        (∀ rp, rp ≠ r → getBin (launchCargoShot fm0 (createRuntime fm0 1 DEFAULT_RUN_MODIFIERS) ({ Keys.allUp with space := true } : Keys)).cargoBins rp =
          getBin (createRuntime fm0 1 DEFAULT_RUN_MODIFIERS).cargoBins rp) ∧
        (launchCargoShot fm0 (createRuntime fm0 1 DEFAULT_RUN_MODIFIERS) ({ Keys.allUp with space := true } : Keys)).cargoShots.map
            (fun sh => (sh.damage, sh.delayBonus, sh.resourceId)) =
          (createRuntime fm0 1 DEFAULT_RUN_MODIFIERS).cargoShots.map (fun sh => (sh.damage, sh.delayBonus, sh.resourceId)) ++
            [(8 + (RESOURCES r).value / 12,
              2 + (8 + (RESOURCES r).value / 12) * 0.16, some r)]) ∧
    ((∀ r0, (getBin (createRuntime fm0 1 DEFAULT_RUN_MODIFIERS).cargoBins r0).units ≤ 0) →
      (launchCargoShot fm0 (createRuntime fm0 1 DEFAULT_RUN_MODIFIERS) ({ Keys.allUp with space := true } : Keys)).cargoBins = (createRuntime fm0 1 DEFAULT_RUN_MODIFIERS).cargoBins ∧
        (launchCargoShot fm0 (createRuntime fm0 1 DEFAULT_RUN_MODIFIERS) ({ Keys.allUp with space := true } : Keys)).cargoShots = (createRuntime fm0 1 DEFAULT_RUN_MODIFIERS).cargoShots)) :=
  ⟨rfl, binsGood_createCargoBins,
    C9_launch_selection fm0 (createRuntime fm0 1 DEFAULT_RUN_MODIFIERS)
      { Keys.allUp with space := true } rfl binsGood_createCargoBins⟩

/-! Hull/status frame layer for the hull-bounds claim: most step
components never touch hull, maxHull, the self-damage multiplier or the
mission status. -/
@[simp] theorem updateFreighterTransit_status (s : GameRuntime) :
    (updateFreighterTransit s).status = s.status := rfl
@[simp] theorem updateFreighterTransit_hull (s : GameRuntime) :
    (updateFreighterTransit s).hull = s.hull := rfl
@[simp] theorem updateFreighterTransit_maxHull (s : GameRuntime) :
    (updateFreighterTransit s).maxHull = s.maxHull := rfl
@[simp] theorem updateFreighterTransit_rammerSelf (s : GameRuntime) :
    (updateFreighterTransit s).rammerSelfDamageMultiplier = s.rammerSelfDamageMultiplier := rfl
@[simp] theorem updatePrevKeys_status (s : GameRuntime) (k : Keys) :
    (updatePrevKeys s k).status = s.status := rfl
@[simp] theorem updatePrevKeys_hull (s : GameRuntime) (k : Keys) :
    (updatePrevKeys s k).hull = s.hull := rfl
@[simp] theorem updatePrevKeys_maxHull (s : GameRuntime) (k : Keys) :
    (updatePrevKeys s k).maxHull = s.maxHull := rfl
@[simp] theorem updatePrevKeys_rammerSelf (s : GameRuntime) (k : Keys) :
    (updatePrevKeys s k).rammerSelfDamageMultiplier = s.rammerSelfDamageMultiplier := rfl
@[simp] theorem updatePlayerControlWithInput_status (fm : FloatModel) (s : GameRuntime) (dt : ℚ) (i : ControlInput) :
    (updatePlayerControlWithInput fm s dt i).status = s.status := rfl
@[simp] theorem updatePlayerControlWithInput_hull (fm : FloatModel) (s : GameRuntime) (dt : ℚ) (i : ControlInput) :
    (updatePlayerControlWithInput fm s dt i).hull = s.hull := rfl
@[simp] theorem updatePlayerControlWithInput_maxHull (fm : FloatModel) (s : GameRuntime) (dt : ℚ) (i : ControlInput) :
    (updatePlayerControlWithInput fm s dt i).maxHull = s.maxHull := rfl
@[simp] theorem updatePlayerControlWithInput_rammerSelf (fm : FloatModel) (s : GameRuntime) (dt : ℚ) (i : ControlInput) :
    (updatePlayerControlWithInput fm s dt i).rammerSelfDamageMultiplier = s.rammerSelfDamageMultiplier := rfl
@[simp] theorem resolveAsteroidCollisions_status (fm : FloatModel) (s : GameRuntime) :
    (resolveAsteroidCollisions fm s).status = s.status := rfl
@[simp] theorem resolveAsteroidCollisions_hull (fm : FloatModel) (s : GameRuntime) :
    (resolveAsteroidCollisions fm s).hull = s.hull := rfl
@[simp] theorem resolveAsteroidCollisions_maxHull (fm : FloatModel) (s : GameRuntime) :
    (resolveAsteroidCollisions fm s).maxHull = s.maxHull := rfl
@[simp] theorem resolveAsteroidCollisions_rammerSelf (fm : FloatModel) (s : GameRuntime) :
    (resolveAsteroidCollisions fm s).rammerSelfDamageMultiplier = s.rammerSelfDamageMultiplier := rfl
@[simp] theorem applyFreighterDockActions_status (fm : FloatModel) (s : GameRuntime) (k : Keys) :
    (applyFreighterDockActions fm s k).status = s.status := by
  unfold applyFreighterDockActions
  dsimp only
  repeat' split
  all_goals first | rfl | (simp; done)
@[simp] theorem applyFreighterDockActions_hull (fm : FloatModel) (s : GameRuntime) (k : Keys) :
    (applyFreighterDockActions fm s k).hull = s.hull := by
  unfold applyFreighterDockActions
  dsimp only
  repeat' split
  all_goals first | rfl | (simp; done)
@[simp] theorem applyFreighterDockActions_maxHull (fm : FloatModel) (s : GameRuntime) (k : Keys) :
    (applyFreighterDockActions fm s k).maxHull = s.maxHull := by
  unfold applyFreighterDockActions
  dsimp only
  repeat' split
  all_goals first | rfl | (simp; done)
@[simp] theorem applyFreighterDockActions_rammerSelf (fm : FloatModel) (s : GameRuntime) (k : Keys) :
    (applyFreighterDockActions fm s k).rammerSelfDamageMultiplier = s.rammerSelfDamageMultiplier := by
  unfold applyFreighterDockActions
  dsimp only
  repeat' split
  all_goals first | rfl | (simp; done)
@[simp] theorem updateGrabber_status (fm : FloatModel) (s : GameRuntime) (k : Keys) :
    (updateGrabber fm s k).status = s.status := by
  unfold updateGrabber
  dsimp only
  repeat' split
  all_goals first | rfl | (simp; done)
@[simp] theorem updateGrabber_hull (fm : FloatModel) (s : GameRuntime) (k : Keys) :
    (updateGrabber fm s k).hull = s.hull := by
  unfold updateGrabber
  dsimp only
  repeat' split
  all_goals first | rfl | (simp; done)
@[simp] theorem updateGrabber_maxHull (fm : FloatModel) (s : GameRuntime) (k : Keys) :
    (updateGrabber fm s k).maxHull = s.maxHull := by
  unfold updateGrabber
  dsimp only
  repeat' split
  all_goals first | rfl | (simp; done)
@[simp] theorem updateGrabber_rammerSelf (fm : FloatModel) (s : GameRuntime) (k : Keys) :
    (updateGrabber fm s k).rammerSelfDamageMultiplier = s.rammerSelfDamageMultiplier := by
  unfold updateGrabber
  dsimp only
  repeat' split
  all_goals first | rfl | (simp; done)
@[simp] theorem moveGrabbedAsteroid_status (fm : FloatModel) (s : GameRuntime) (dt : ℚ) :
    (moveGrabbedAsteroid fm s dt).status = s.status := by
  unfold moveGrabbedAsteroid
  dsimp only
  repeat' split
  all_goals first | rfl | (simp; done)
@[simp] theorem moveGrabbedAsteroid_hull (fm : FloatModel) (s : GameRuntime) (dt : ℚ) :
    (moveGrabbedAsteroid fm s dt).hull = s.hull := by
  unfold moveGrabbedAsteroid
  dsimp only
  repeat' split
  all_goals first | rfl | (simp; done)
@[simp] theorem moveGrabbedAsteroid_maxHull (fm : FloatModel) (s : GameRuntime) (dt : ℚ) :
    (moveGrabbedAsteroid fm s dt).maxHull = s.maxHull := by
  unfold moveGrabbedAsteroid
  dsimp only
  repeat' split
  all_goals first | rfl | (simp; done)
@[simp] theorem moveGrabbedAsteroid_rammerSelf (fm : FloatModel) (s : GameRuntime) (dt : ℚ) :
    (moveGrabbedAsteroid fm s dt).rammerSelfDamageMultiplier = s.rammerSelfDamageMultiplier := by
  unfold moveGrabbedAsteroid
  dsimp only
  repeat' split
  all_goals first | rfl | (simp; done)
@[simp] theorem launchCargoShot_status (fm : FloatModel) (s : GameRuntime) (k : Keys) :
    (launchCargoShot fm s k).status = s.status := by
  unfold launchCargoShot
  dsimp only
  repeat' split
  all_goals first | rfl | (simp; done)
@[simp] theorem launchCargoShot_hull (fm : FloatModel) (s : GameRuntime) (k : Keys) :
    (launchCargoShot fm s k).hull = s.hull := by
  unfold launchCargoShot
  dsimp only
  repeat' split
  all_goals first | rfl | (simp; done)
@[simp] theorem launchCargoShot_maxHull (fm : FloatModel) (s : GameRuntime) (k : Keys) :
    (launchCargoShot fm s k).maxHull = s.maxHull := by
  unfold launchCargoShot
  dsimp only
  repeat' split
  all_goals first | rfl | (simp; done)
@[simp] theorem launchCargoShot_rammerSelf (fm : FloatModel) (s : GameRuntime) (k : Keys) :
    (launchCargoShot fm s k).rammerSelfDamageMultiplier = s.rammerSelfDamageMultiplier := by
  unfold launchCargoShot
  dsimp only
  repeat' split
  all_goals first | rfl | (simp; done)
@[simp] theorem launchWeaponShot_status (fm : FloatModel) (s : GameRuntime) (k : Keys) :
    (launchWeaponShot fm s k).status = s.status := by
  unfold launchWeaponShot
  dsimp only
  repeat' split
  all_goals first | rfl | (simp; done)
@[simp] theorem launchWeaponShot_hull (fm : FloatModel) (s : GameRuntime) (k : Keys) :
    (launchWeaponShot fm s k).hull = s.hull := by
  unfold launchWeaponShot
  dsimp only
  repeat' split
  all_goals first | rfl | (simp; done)
@[simp] theorem launchWeaponShot_maxHull (fm : FloatModel) (s : GameRuntime) (k : Keys) :
    (launchWeaponShot fm s k).maxHull = s.maxHull := by
  unfold launchWeaponShot
  dsimp only
  repeat' split
  all_goals first | rfl | (simp; done)
@[simp] theorem launchWeaponShot_rammerSelf (fm : FloatModel) (s : GameRuntime) (k : Keys) :
    (launchWeaponShot fm s k).rammerSelfDamageMultiplier = s.rammerSelfDamageMultiplier := by
  unfold launchWeaponShot
  dsimp only
  repeat' split
  all_goals first | rfl | (simp; done)
@[simp] theorem drillYield_status (s : GameRuntime) (ast : AsteroidSim) :
    ((drillYield s ast).1).status = s.status := by
  unfold drillYield
  dsimp only
  repeat' split
  all_goals first | rfl | (simp; done)
@[simp] theorem drillYield_hull (s : GameRuntime) (ast : AsteroidSim) :
    ((drillYield s ast).1).hull = s.hull := by
  unfold drillYield
  dsimp only
  repeat' split
  all_goals first | rfl | (simp; done)
@[simp] theorem drillYield_maxHull (s : GameRuntime) (ast : AsteroidSim) :
    ((drillYield s ast).1).maxHull = s.maxHull := by
  unfold drillYield
  dsimp only
  repeat' split
  all_goals first | rfl | (simp; done)
@[simp] theorem drillYield_rammerSelf (s : GameRuntime) (ast : AsteroidSim) :
    ((drillYield s ast).1).rammerSelfDamageMultiplier = s.rammerSelfDamageMultiplier := by
  unfold drillYield
  dsimp only
  repeat' split
  all_goals first | rfl | (simp; done)
@[simp] theorem drillUnits_status (s : GameRuntime) (r : ResourceId) :
    ((drillUnits s r).1).status = s.status := by
  unfold drillUnits
  dsimp only
  repeat' split
  all_goals first | rfl | (simp; done)
@[simp] theorem drillUnits_hull (s : GameRuntime) (r : ResourceId) :
    ((drillUnits s r).1).hull = s.hull := by
  unfold drillUnits
  dsimp only
  repeat' split
  all_goals first | rfl | (simp; done)
@[simp] theorem drillUnits_maxHull (s : GameRuntime) (r : ResourceId) :
    ((drillUnits s r).1).maxHull = s.maxHull := by
  unfold drillUnits
  dsimp only
  repeat' split
  all_goals first | rfl | (simp; done)
@[simp] theorem drillUnits_rammerSelf (s : GameRuntime) (r : ResourceId) :
    ((drillUnits s r).1).rammerSelfDamageMultiplier = s.rammerSelfDamageMultiplier := by
  unfold drillUnits
  dsimp only
  repeat' split
  all_goals first | rfl | (simp; done)
@[simp] theorem drillTick_status (s : GameRuntime) (ast : AsteroidSim) :
    ((drillTick s ast).1).status = s.status := by
  unfold drillTick
  dsimp only
  repeat' split
  all_goals first | rfl | (simp; done)
@[simp] theorem drillTick_hull (s : GameRuntime) (ast : AsteroidSim) :
    ((drillTick s ast).1).hull = s.hull := by
  unfold drillTick
  dsimp only
  repeat' split
  all_goals first | rfl | (simp; done)
@[simp] theorem drillTick_maxHull (s : GameRuntime) (ast : AsteroidSim) :
    ((drillTick s ast).1).maxHull = s.maxHull := by
  unfold drillTick
  dsimp only
  repeat' split
  all_goals first | rfl | (simp; done)
@[simp] theorem drillTick_rammerSelf (s : GameRuntime) (ast : AsteroidSim) :
    ((drillTick s ast).1).rammerSelfDamageMultiplier = s.rammerSelfDamageMultiplier := by
  unfold drillTick
  dsimp only
  repeat' split
  all_goals first | rfl | (simp; done)
@[simp] theorem playerImpactBody_status (fm : FloatModel) (s : GameRuntime) (a : AsteroidSim) :
    (playerImpactBody fm s a).status = s.status := by
  unfold playerImpactBody
  dsimp only
  repeat' split
  all_goals first | rfl | (simp; done)
@[simp] theorem playerImpactBody_maxHull (fm : FloatModel) (s : GameRuntime) (a : AsteroidSim) :
    (playerImpactBody fm s a).maxHull = s.maxHull := by
  unfold playerImpactBody
  dsimp only
  repeat' split
  all_goals first | rfl | (simp; done)
@[simp] theorem playerImpactBody_rammerSelf (fm : FloatModel) (s : GameRuntime) (a : AsteroidSim) :
    (playerImpactBody fm s a).rammerSelfDamageMultiplier = s.rammerSelfDamageMultiplier := by
  unfold playerImpactBody
  dsimp only
  repeat' split
  all_goals first | rfl | (simp; done)
@[simp] theorem resolvePlayerPirateImpact_status (fm : FloatModel) (s : GameRuntime) (dt : ℚ) :
    (resolvePlayerPirateImpact fm s dt).status = s.status := by
  unfold resolvePlayerPirateImpact
  dsimp only
  repeat' split
  all_goals first | rfl | (simp; done)
@[simp] theorem resolvePlayerPirateImpact_maxHull (fm : FloatModel) (s : GameRuntime) (dt : ℚ) :
    (resolvePlayerPirateImpact fm s dt).maxHull = s.maxHull := by
  unfold resolvePlayerPirateImpact
  dsimp only
  repeat' split
  all_goals first | rfl | (simp; done)
@[simp] theorem resolvePlayerPirateImpact_rammerSelf (fm : FloatModel) (s : GameRuntime) (dt : ℚ) :
    (resolvePlayerPirateImpact fm s dt).rammerSelfDamageMultiplier = s.rammerSelfDamageMultiplier := by
  unfold resolvePlayerPirateImpact
  dsimp only
  repeat' split
  all_goals first | rfl | (simp; done)
@[simp] theorem shotHitPirate_status (fm : FloatModel) (s : GameRuntime) (shot : CargoShot) :
    ((shotHitPirate fm s shot).1).status = s.status := by
  unfold shotHitPirate
  dsimp only
  repeat' split
  all_goals first | rfl | (simp; done)
@[simp] theorem shotHitPirate_hull (fm : FloatModel) (s : GameRuntime) (shot : CargoShot) :
    ((shotHitPirate fm s shot).1).hull = s.hull := by
  unfold shotHitPirate
  dsimp only
  repeat' split
  all_goals first | rfl | (simp; done)
@[simp] theorem shotHitPirate_maxHull (fm : FloatModel) (s : GameRuntime) (shot : CargoShot) :
    ((shotHitPirate fm s shot).1).maxHull = s.maxHull := by
  unfold shotHitPirate
  dsimp only
  repeat' split
  all_goals first | rfl | (simp; done)
@[simp] theorem shotHitPirate_rammerSelf (fm : FloatModel) (s : GameRuntime) (shot : CargoShot) :
    ((shotHitPirate fm s shot).1).rammerSelfDamageMultiplier = s.rammerSelfDamageMultiplier := by
  unfold shotHitPirate
  dsimp only
  repeat' split
  all_goals first | rfl | (simp; done)
@[simp] theorem updatePirate_hull (fm : FloatModel) (s : GameRuntime) (dt : ℚ) :
    (updatePirate fm s dt).hull = s.hull := by
  unfold updatePirate
  dsimp only
  repeat' split
  all_goals first | rfl | (simp; done)
@[simp] theorem updatePirate_maxHull (fm : FloatModel) (s : GameRuntime) (dt : ℚ) :
    (updatePirate fm s dt).maxHull = s.maxHull := by
  unfold updatePirate
  dsimp only
  repeat' split
  all_goals first | rfl | (simp; done)
@[simp] theorem updatePirate_rammerSelf (fm : FloatModel) (s : GameRuntime) (dt : ℚ) :
    (updatePirate fm s dt).rammerSelfDamageMultiplier = s.rammerSelfDamageMultiplier := by
  unfold updatePirate
  dsimp only
  repeat' split
  all_goals first | rfl | (simp; done)
@[simp] theorem evaluateMissionOutcome_hull (s : GameRuntime) :
    (evaluateMissionOutcome s).hull = s.hull := by
  unfold evaluateMissionOutcome
  dsimp only
  repeat' split
  all_goals first | rfl | (simp; done)
@[simp] theorem evaluateMissionOutcome_maxHull (s : GameRuntime) :
    (evaluateMissionOutcome s).maxHull = s.maxHull := by
  unfold evaluateMissionOutcome
  dsimp only
  repeat' split
  all_goals first | rfl | (simp; done)
@[simp] theorem evaluateMissionOutcome_rammerSelf (s : GameRuntime) :
    (evaluateMissionOutcome s).rammerSelfDamageMultiplier = s.rammerSelfDamageMultiplier := by
  unfold evaluateMissionOutcome
  dsimp only
  repeat' split
  all_goals first | rfl | (simp; done)
@[simp] theorem cargoShotBody_status (fm : FloatModel) (dt : ℚ)
    (acc : GameRuntime × List CargoShot) (x : CargoShot) :
    ((cargoShotBody fm dt acc x).1).status = acc.1.status := by
  unfold cargoShotBody
  dsimp only
  repeat' split
  all_goals first | rfl | (simp; done)
@[simp] theorem cargoShotBody_hull (fm : FloatModel) (dt : ℚ)
    (acc : GameRuntime × List CargoShot) (x : CargoShot) :
    ((cargoShotBody fm dt acc x).1).hull = acc.1.hull := by
  unfold cargoShotBody
  dsimp only
  repeat' split
  all_goals first | rfl | (simp; done)
@[simp] theorem cargoShotBody_maxHull (fm : FloatModel) (dt : ℚ)
    (acc : GameRuntime × List CargoShot) (x : CargoShot) :
    ((cargoShotBody fm dt acc x).1).maxHull = acc.1.maxHull := by
  unfold cargoShotBody
  dsimp only
  repeat' split
  all_goals first | rfl | (simp; done)
@[simp] theorem cargoShotBody_rammerSelf (fm : FloatModel) (dt : ℚ)
    (acc : GameRuntime × List CargoShot) (x : CargoShot) :
    ((cargoShotBody fm dt acc x).1).rammerSelfDamageMultiplier = acc.1.rammerSelfDamageMultiplier := by
  unfold cargoShotBody
  dsimp only
  repeat' split
  all_goals first | rfl | (simp; done)
theorem drillLoop_status :
    ∀ (fuel : ℕ) (s : GameRuntime) (ast : AsteroidSim),
      ((drillLoop s ast fuel).1).status = s.status := by
  intro fuel
  induction fuel with
  | zero => intro s ast; rfl
  | succ fuel ih =>
    intro s ast
    unfold drillLoop
    dsimp only
    repeat' split
    all_goals
      first
      | rfl
      | exact drillTick_status s ast
      | exact (ih _ _).trans (drillTick_status s ast)
theorem unloadLoop_status :
    ∀ (fuel : ℕ) (s : GameRuntime), (unloadLoop s fuel).status = s.status := by
  intro fuel
  induction fuel with
  | zero => intro s; rfl
  | succ fuel ih =>
    intro s
    unfold unloadLoop
    dsimp only
    repeat' split
    all_goals
      first
      | rfl
      | exact (ih _).trans (by simp)
      | (simp; done)
theorem pirateImpactLoop_status (fm : FloatModel) :
    ∀ (l : List ℕ) (s : GameRuntime), (pirateImpactLoop fm s l).status = s.status := by
  intro l
  induction l with
  | nil => intro s; rfl
  | cons i rest ih =>
    intro s
    unfold pirateImpactLoop
    dsimp only
    repeat' split
    all_goals
      first
      | exact ih s
      | exact (ih _).trans (by simp)
      | (simp; done)
theorem drillLoop_hull :
    ∀ (fuel : ℕ) (s : GameRuntime) (ast : AsteroidSim),
      ((drillLoop s ast fuel).1).hull = s.hull := by
  intro fuel
  induction fuel with
  | zero => intro s ast; rfl
  | succ fuel ih =>
    intro s ast
    unfold drillLoop
    dsimp only
    repeat' split
    all_goals
      first
      | rfl
      | exact drillTick_hull s ast
      | exact (ih _ _).trans (drillTick_hull s ast)
theorem unloadLoop_hull :
    ∀ (fuel : ℕ) (s : GameRuntime), (unloadLoop s fuel).hull = s.hull := by
  intro fuel
  induction fuel with
  | zero => intro s; rfl
  | succ fuel ih =>
    intro s
    unfold unloadLoop
    dsimp only
    repeat' split
    all_goals
      first
      | rfl
      | exact (ih _).trans (by simp)
      | (simp; done)
theorem pirateImpactLoop_hull (fm : FloatModel) :
    ∀ (l : List ℕ) (s : GameRuntime), (pirateImpactLoop fm s l).hull = s.hull := by
  intro l
  induction l with
  | nil => intro s; rfl
  | cons i rest ih =>
    intro s
    unfold pirateImpactLoop
    dsimp only
    repeat' split
    all_goals
      first
      | exact ih s
      | exact (ih _).trans (by simp)
      | (simp; done)
theorem drillLoop_maxHull :
    ∀ (fuel : ℕ) (s : GameRuntime) (ast : AsteroidSim),
      ((drillLoop s ast fuel).1).maxHull = s.maxHull := by
  intro fuel
  induction fuel with
  | zero => intro s ast; rfl
  | succ fuel ih =>
    intro s ast
    unfold drillLoop
    dsimp only
    repeat' split
    all_goals
      first
      | rfl
      | exact drillTick_maxHull s ast
      | exact (ih _ _).trans (drillTick_maxHull s ast)
theorem unloadLoop_maxHull :
    ∀ (fuel : ℕ) (s : GameRuntime), (unloadLoop s fuel).maxHull = s.maxHull := by
  intro fuel
  induction fuel with
  | zero => intro s; rfl
  | succ fuel ih =>
    intro s
    unfold unloadLoop
    dsimp only
    repeat' split
    all_goals
      first
      | rfl
      | exact (ih _).trans (by simp)
      | (simp; done)
theorem pirateImpactLoop_maxHull (fm : FloatModel) :
    ∀ (l : List ℕ) (s : GameRuntime), (pirateImpactLoop fm s l).maxHull = s.maxHull := by
  intro l
  induction l with
  | nil => intro s; rfl
  | cons i rest ih =>
    intro s
    unfold pirateImpactLoop
    dsimp only
    repeat' split
    all_goals
      first
      | exact ih s
      | exact (ih _).trans (by simp)
      | (simp; done)
theorem drillLoop_rammerSelf :
    ∀ (fuel : ℕ) (s : GameRuntime) (ast : AsteroidSim),
      ((drillLoop s ast fuel).1).rammerSelfDamageMultiplier = s.rammerSelfDamageMultiplier := by
  intro fuel
  induction fuel with
  | zero => intro s ast; rfl
  | succ fuel ih =>
    intro s ast
    unfold drillLoop
    dsimp only
    repeat' split
    all_goals
      first
      | rfl
      | exact drillTick_rammerSelf s ast
      | exact (ih _ _).trans (drillTick_rammerSelf s ast)
theorem unloadLoop_rammerSelf :
    ∀ (fuel : ℕ) (s : GameRuntime), (unloadLoop s fuel).rammerSelfDamageMultiplier = s.rammerSelfDamageMultiplier := by
  intro fuel
  induction fuel with
  | zero => intro s; rfl
  | succ fuel ih =>
    intro s
    unfold unloadLoop
    dsimp only
    repeat' split
    all_goals
      first
      | rfl
      | exact (ih _).trans (by simp)
      | (simp; done)
theorem pirateImpactLoop_rammerSelf (fm : FloatModel) :
    ∀ (l : List ℕ) (s : GameRuntime), (pirateImpactLoop fm s l).rammerSelfDamageMultiplier = s.rammerSelfDamageMultiplier := by
  intro l
  induction l with
  | nil => intro s; rfl
  | cons i rest ih =>
    intro s
    unfold pirateImpactLoop
    dsimp only
    repeat' split
    all_goals
      first
      | exact ih s
      | exact (ih _).trans (by simp)
      | (simp; done)
@[simp] theorem updateDrill_status (s : GameRuntime) (dt : ℚ) (k : Keys) :
    (updateDrill s dt k).status = s.status := by
  unfold updateDrill
  dsimp only
  repeat' split
  all_goals first | rfl | simp [drillLoop_status]
@[simp] theorem resolveAsteroidPirateImpacts_status (fm : FloatModel)
    (s : GameRuntime) (dt : ℚ) :
    (resolveAsteroidPirateImpacts fm s dt).status = s.status := by
  unfold resolveAsteroidPirateImpacts
  dsimp only
  split
  · rfl
  · exact (pirateImpactLoop_status fm _ _).trans rfl
@[simp] theorem updateCargoShots_status (fm : FloatModel) (s : GameRuntime)
    (dt : ℚ) : (updateCargoShots fm s dt).status = s.status := by
  have hr : ((s.cargoShots.foldl (cargoShotBody fm dt) (s, [])).1).status = s.status :=
    foldl_inv (cargoShotBody fm dt) (fun acc => acc.1.status = s.status)
      (fun acc b ha => (cargoShotBody_status fm dt acc b).trans ha)
      s.cargoShots (s, []) rfl
  unfold updateCargoShots
  dsimp only
  show ((s.cargoShots.foldl (cargoShotBody fm dt) (s, [])).1).status = s.status
  exact hr
@[simp] theorem updateDrill_hull (s : GameRuntime) (dt : ℚ) (k : Keys) :
    (updateDrill s dt k).hull = s.hull := by
  unfold updateDrill
  dsimp only
  repeat' split
  all_goals first | rfl | simp [drillLoop_hull]
@[simp] theorem resolveAsteroidPirateImpacts_hull (fm : FloatModel)
    (s : GameRuntime) (dt : ℚ) :
    (resolveAsteroidPirateImpacts fm s dt).hull = s.hull := by
  unfold resolveAsteroidPirateImpacts
  dsimp only
  split
  · rfl
  · exact (pirateImpactLoop_hull fm _ _).trans rfl
@[simp] theorem updateCargoShots_hull (fm : FloatModel) (s : GameRuntime)
    (dt : ℚ) : (updateCargoShots fm s dt).hull = s.hull := by
  have hr : ((s.cargoShots.foldl (cargoShotBody fm dt) (s, [])).1).hull = s.hull :=
    foldl_inv (cargoShotBody fm dt) (fun acc => acc.1.hull = s.hull)
      (fun acc b ha => (cargoShotBody_hull fm dt acc b).trans ha)
      s.cargoShots (s, []) rfl
  unfold updateCargoShots
  dsimp only
  show ((s.cargoShots.foldl (cargoShotBody fm dt) (s, [])).1).hull = s.hull
  exact hr
@[simp] theorem updateDrill_maxHull (s : GameRuntime) (dt : ℚ) (k : Keys) :
    (updateDrill s dt k).maxHull = s.maxHull := by
  unfold updateDrill
  dsimp only
  repeat' split
  all_goals first | rfl | simp [drillLoop_maxHull]
@[simp] theorem resolveAsteroidPirateImpacts_maxHull (fm : FloatModel)
    (s : GameRuntime) (dt : ℚ) :
    (resolveAsteroidPirateImpacts fm s dt).maxHull = s.maxHull := by
  unfold resolveAsteroidPirateImpacts
  dsimp only
  split
  · rfl
  · exact (pirateImpactLoop_maxHull fm _ _).trans rfl
@[simp] theorem updateCargoShots_maxHull (fm : FloatModel) (s : GameRuntime)
    (dt : ℚ) : (updateCargoShots fm s dt).maxHull = s.maxHull := by
  have hr : ((s.cargoShots.foldl (cargoShotBody fm dt) (s, [])).1).maxHull = s.maxHull :=
    foldl_inv (cargoShotBody fm dt) (fun acc => acc.1.maxHull = s.maxHull)
      (fun acc b ha => (cargoShotBody_maxHull fm dt acc b).trans ha)
      s.cargoShots (s, []) rfl
  unfold updateCargoShots
  dsimp only
  show ((s.cargoShots.foldl (cargoShotBody fm dt) (s, [])).1).maxHull = s.maxHull
  exact hr
@[simp] theorem updateDrill_rammerSelf (s : GameRuntime) (dt : ℚ) (k : Keys) :
    (updateDrill s dt k).rammerSelfDamageMultiplier = s.rammerSelfDamageMultiplier := by
  unfold updateDrill
  dsimp only
  repeat' split
  all_goals first | rfl | simp [drillLoop_rammerSelf]
@[simp] theorem resolveAsteroidPirateImpacts_rammerSelf (fm : FloatModel)
    (s : GameRuntime) (dt : ℚ) :
    (resolveAsteroidPirateImpacts fm s dt).rammerSelfDamageMultiplier = s.rammerSelfDamageMultiplier := by
  unfold resolveAsteroidPirateImpacts
  dsimp only
  split
  · rfl
  · exact (pirateImpactLoop_rammerSelf fm _ _).trans rfl
@[simp] theorem updateCargoShots_rammerSelf (fm : FloatModel) (s : GameRuntime)
    (dt : ℚ) : (updateCargoShots fm s dt).rammerSelfDamageMultiplier = s.rammerSelfDamageMultiplier := by
  have hr : ((s.cargoShots.foldl (cargoShotBody fm dt) (s, [])).1).rammerSelfDamageMultiplier = s.rammerSelfDamageMultiplier :=
    foldl_inv (cargoShotBody fm dt) (fun acc => acc.1.rammerSelfDamageMultiplier = s.rammerSelfDamageMultiplier)
      (fun acc b ha => (cargoShotBody_rammerSelf fm dt acc b).trans ha)
      s.cargoShots (s, []) rfl
  unfold updateCargoShots
  dsimp only
  show ((s.cargoShots.foldl (cargoShotBody fm dt) (s, [])).1).rammerSelfDamageMultiplier = s.rammerSelfDamageMultiplier
  exact hr
@[simp] theorem updateDockedSystems_status (s : GameRuntime) (dt : ℚ) :
    (updateDockedSystems s dt).status = s.status := by
  unfold updateDockedSystems
  dsimp only
  repeat' split
  all_goals first | rfl | simp [unloadLoop_status]
@[simp] theorem resolvePlayerAsteroidImpacts_status (fm : FloatModel)
    (s : GameRuntime) (dt : ℚ) :
    (resolvePlayerAsteroidImpacts fm s dt).status = s.status := by
  unfold resolvePlayerAsteroidImpacts
  dsimp only
  exact (foldl_obs (playerImpactBody fm) (fun st => st.status)
    (fun a b => playerImpactBody_status fm a b) _ _).trans rfl
@[simp] theorem updateDockedSystems_maxHull (s : GameRuntime) (dt : ℚ) :
    (updateDockedSystems s dt).maxHull = s.maxHull := by
  unfold updateDockedSystems
  dsimp only
  repeat' split
  all_goals first | rfl | simp [unloadLoop_maxHull]
@[simp] theorem resolvePlayerAsteroidImpacts_maxHull (fm : FloatModel)
    (s : GameRuntime) (dt : ℚ) :
    (resolvePlayerAsteroidImpacts fm s dt).maxHull = s.maxHull := by
  unfold resolvePlayerAsteroidImpacts
  dsimp only
  exact (foldl_obs (playerImpactBody fm) (fun st => st.maxHull)
    (fun a b => playerImpactBody_maxHull fm a b) _ _).trans rfl
@[simp] theorem updateDockedSystems_rammerSelf (s : GameRuntime) (dt : ℚ) :
    (updateDockedSystems s dt).rammerSelfDamageMultiplier = s.rammerSelfDamageMultiplier := by
  unfold updateDockedSystems
  dsimp only
  repeat' split
  all_goals first | rfl | simp [unloadLoop_rammerSelf]
@[simp] theorem resolvePlayerAsteroidImpacts_rammerSelf (fm : FloatModel)
    (s : GameRuntime) (dt : ℚ) :
    (resolvePlayerAsteroidImpacts fm s dt).rammerSelfDamageMultiplier = s.rammerSelfDamageMultiplier := by
  unfold resolvePlayerAsteroidImpacts
  dsimp only
  exact (foldl_obs (playerImpactBody fm) (fun st => st.rammerSelfDamageMultiplier)
    (fun a b => playerImpactBody_rammerSelf fm a b) _ _).trans rfl
theorem updatePirate_status_or (fm : FloatModel) (s : GameRuntime) (dt : ℚ) :
    (updatePirate fm s dt).status = s.status ∨
      (updatePirate fm s dt).status = GameStatus.lost := by
  unfold updatePirate
  dsimp only
  repeat' split
  all_goals
    first
    | exact Or.inl rfl
    | (refine Or.inl ?_; simp; done)
    | (refine Or.inr ?_; simp; done)

end Powerball
